import Mathlib

/-
Verification of the FallingSand core simulation (src/game/simulation/world.py
and src/game/simulation/material.py) against its specification.

Shallow embedding conventions:
- Grids (`_cur`, `_nxt`, `_moved`) are lists of rows, indexed `grid[y][x]`
  exactly as in the Python source; cells hold the small-integer material id.
- Coordinates arriving at the public API are `Int` (Python ints may be
  negative); they are converted to list indices only after the
  `_is_valid_position` bounds check, as in the source.
- Python's `random` module is modelled as an explicit stream of naturals
  (`Rng`) threaded through every rule.  `random.randint(a, b)` consumes one
  stream element n and yields `a + n % (b - a + 1)`, which is uniform on
  `[a, b]` for a uniform n; `random.random() < 0.3` consumes one element n
  and yields the Boolean `n % 10 < 3`, true for exactly 3 of 10 residues.
- `FireMaterial._lifetimes` is a Python class attribute (a dict keyed by
  coordinate) that `World.clear` does not touch; it is embedded as a field
  `lifetimes` of `World` carried alongside the grids, implemented as an
  association list with at most one entry per key, and `clear` leaves it
  unchanged, exactly as the source does.
-/

namespace FallingSand

/-- Material identifiers, from the `MaterialType` IntEnum. -/
def EMPTY : Nat := 0

def WALL : Nat := 1

def SAND : Nat := 2

def WATER : Nat := 3

def OIL : Nat := 4

def FIRE : Nat := 5

/-- Density of each registered material (`density` property of each
`Material` subclass); the final branch is the `Material` base-class default
of 100, which no registered id reaches. -/
def density (pid : Nat) : Int :=
  if pid = EMPTY then 0
  else if pid = WALL then 1000
  else if pid = SAND then 150
  else if pid = WATER then 100
  else if pid = OIL then 50
  else if pid = FIRE then -10
  else 100

/-- The `hasattr(neighbor, "flammable") and neighbor.flammable` probe: only
`OilMaterial` defines a `flammable` attribute (returning True). -/
def flammable (pid : Nat) : Bool := pid = OIL

/-- `MaterialRegistry.get`: the singleton registry holds exactly the six
materials with ids 0..5; any other key yields None. -/
def registry_get (pid : Int) : Option Nat :=
  if 0 ≤ pid ∧ pid ≤ 5 then some pid.toNat else none

/-- Random source: the stream of values Python's `random` would produce,
consumed front-to-back. -/
abbrev Rng := List Nat

/-- `random.randint(a, b)` (inclusive bounds): consume one stream element. -/
def randint (a b : Nat) (r : Rng) : Nat × Rng :=
  match r with
  | [] => (a, [])
  | n :: t => (a + n % (b + 1 - a), t)

/-- `random.random() < 0.3`: consume one stream element; true with
probability 3/10 for a uniform residue. -/
def rand_ignite (r : Rng) : Bool × Rng :=
  match r with
  | [] => (true, [])
  | n :: t => (decide (n % 10 < 3), t)

/-- A grid of material ids, list of rows, indexed `grid[y][x]`. -/
abbrev Grid := List (List Nat)

/-- The per-frame resolved (`_moved`) mask. -/
abbrev FlagGrid := List (List Bool)

/-- Read `grid[y][x]` (callers establish bounds first, as the source does). -/
def cell (g : Grid) (x y : Nat) : Nat := (g.getD y []).getD x 0

/-- Read `moved[y][x]`. -/
def cellB (g : FlagGrid) (x y : Nat) : Bool := (g.getD y []).getD x false

/-- Write `grid[y][x] = v`. -/
def setCell (g : Grid) (x y : Nat) (v : Nat) : Grid :=
  g.set y ((g.getD y []).set x v)

/-- Write `moved[y][x] = b`. -/
def setFlag (g : FlagGrid) (x y : Nat) (b : Bool) : FlagGrid :=
  g.set y ((g.getD y []).set x b)

/-- The fire-lifetime map `FireMaterial._lifetimes : dict[(int,int), int]`,
as an association list with at most one entry per key. -/
abbrev Lifetimes := List ((Int × Int) × Int)

/-- Dict lookup. -/
def lifetimes_get (l : Lifetimes) (k : Int × Int) : Option Int :=
  match l with
  | [] => none
  | (k2, v) :: t => if k2 = k then some v else lifetimes_get t k

/-- Dict store `l[k] = v` (replace if present, append if absent). -/
def lifetimes_set (l : Lifetimes) (k : Int × Int) (v : Int) : Lifetimes :=
  match l with
  | [] => [(k, v)]
  | (k2, v2) :: t =>
    if k2 = k then (k, v) :: t else (k2, v2) :: lifetimes_set t k v

/-- Dict delete `del l[k]`. -/
def lifetimes_erase (l : Lifetimes) (k : Int × Int) : Lifetimes :=
  l.filter (fun p => p.1 ≠ k)

/-- The `World` state: dimensions, double buffer, resolved mask, frame
counter, and the fire-lifetime map (see header note on `_lifetimes`). -/
structure World where
  width : Nat
  height : Nat
  cur : Grid
  nxt : Grid
  moved : FlagGrid
  frame : Nat
  lifetimes : Lifetimes
  deriving DecidableEq, Repr

/-- `World._create_empty_grid`. -/
def create_empty_grid (width height : Nat) : Grid :=
  List.replicate height (List.replicate width EMPTY)

/-- `World._create_flag_grid`. -/
def create_flag_grid (width height : Nat) : FlagGrid :=
  List.replicate height (List.replicate width false)

/-- `World.__init__(width, height)`. -/
def mkWorld (width height : Nat) : World :=
  { width := width
    height := height
    cur := create_empty_grid width height
    nxt := create_empty_grid width height
    moved := create_flag_grid width height
    frame := 0
    lifetimes := [] }

/-- `World._is_valid_position`. -/
def is_valid_position (w : World) (x y : Int) : Bool :=
  0 ≤ x && x < (w.width : Int) && 0 ≤ y && y < (w.height : Int)

/-- `World.clear`: resets cur, nxt and moved; the fire-lifetime class
attribute is not touched by the source. -/
def clear (w : World) : World :=
  { w with
    cur := create_empty_grid w.width w.height
    nxt := create_empty_grid w.width w.height
    moved := create_flag_grid w.width w.height }

/-- `World.get_pixel`: read cur; -1 when out of bounds. -/
def get_pixel (w : World) (x y : Int) : Int :=
  if is_valid_position w x y then (cell w.cur x.toNat y.toNat : Int) else -1

/-- `World.get_material_at`: None when out of bounds or unregistered id. -/
def get_material_at (w : World) (x y : Int) : Option Nat :=
  let pixel_id := get_pixel w x y
  if pixel_id < 0 then none else registry_get pixel_id

/-- `World.set_pixel`: external edit, writes cur directly. -/
def set_pixel (w : World) (x y : Int) (pixel_type : Nat) : Bool × World :=
  if is_valid_position w x y then
    (true, { w with cur := setCell w.cur x.toNat y.toNat pixel_type })
  else (false, w)

/-- `World.is_updated`: out-of-bounds counts as already resolved. -/
def is_updated (w : World) (x y : Int) : Bool :=
  if is_valid_position w x y then cellB w.moved x.toNat y.toNat else true

/-- `World.mark_updated`. -/
def mark_updated (w : World) (x y : Int) : World :=
  if is_valid_position w x y then
    { w with moved := setFlag w.moved x.toNat y.toNat true }
  else w

/-- `World.swap_pixels`: exchange two cells, reading cur and writing nxt;
fails on out-of-bounds or already-resolved cells; marks both resolved. -/
def swap_pixels (w : World) (x1 y1 x2 y2 : Int) : Bool × World :=
  if ¬ (is_valid_position w x1 y1 ∧ is_valid_position w x2 y2) then (false, w)
  else if cellB w.moved x1.toNat y1.toNat || cellB w.moved x2.toNat y2.toNat then
    (false, w)
  else
    let a := cell w.cur x1.toNat y1.toNat
    let b := cell w.cur x2.toNat y2.toNat
    (true,
      { w with
        nxt := setCell (setCell w.nxt x1.toNat y1.toNat b) x2.toNat y2.toNat a
        moved := setFlag (setFlag w.moved x1.toNat y1.toNat true) x2.toNat y2.toNat true })

/-- `World.try_move`: move source into destination's next slot, source
becomes Empty; same preconditions and marking as swap. -/
def try_move (w : World) (x1 y1 x2 y2 : Int) : Bool × World :=
  if ¬ (is_valid_position w x1 y1 ∧ is_valid_position w x2 y2) then (false, w)
  else if cellB w.moved x1.toNat y1.toNat || cellB w.moved x2.toNat y2.toNat then
    (false, w)
  else
    let a := cell w.cur x1.toNat y1.toNat
    (true,
      { w with
        nxt := setCell (setCell w.nxt x2.toNat y2.toNat a) x1.toNat y1.toNat EMPTY
        moved := setFlag (setFlag w.moved x1.toNat y1.toNat true) x2.toNat y2.toNat true })

/-- `World.try_set`: overwrite one next slot; same preconditions. -/
def try_set (w : World) (x y : Int) (pixel_type : Nat) : Bool × World :=
  if ¬ is_valid_position w x y then (false, w)
  else if cellB w.moved x.toNat y.toNat then (false, w)
  else
    (true,
      { w with
        nxt := setCell w.nxt x.toNat y.toNat pixel_type
        moved := setFlag w.moved x.toNat y.toNat true })

/-- `SandMaterial.update` (density 150). -/
def sand_update (x y : Int) (w : World) (r : Rng) : World × Rng :=
  let self_density : Int := 150
  let diagonals : World → Rng → World × Rng := fun w r =>
    let left_material := get_material_at w (x - 1) (y + 1)
    let right_material := get_material_at w (x + 1) (y + 1)
    let left_passable :=
      match left_material with
      | some m => decide (density m < self_density)
      | none => false
    let right_passable :=
      match right_material with
      | some m => decide (density m < self_density)
      | none => false
    if left_passable && right_passable then
      let d := randint 0 1 r
      if d.1 = 0 then ((swap_pixels w x y (x - 1) (y + 1)).2, d.2)
      else ((swap_pixels w x y (x + 1) (y + 1)).2, d.2)
    else if left_passable then ((swap_pixels w x y (x - 1) (y + 1)).2, r)
    else if right_passable then ((swap_pixels w x y (x + 1) (y + 1)).2, r)
    else (w, r)
  match get_material_at w x (y + 1) with
  | some below =>
    if density below < self_density then ((swap_pixels w x y x (y + 1)).2, r)
    else diagonals w r
  | none => diagonals w r

/-- `WaterMaterial.update` and `OilMaterial.update` share this body with
`self.id`/`self.density` instantiated per material; the two Python methods
are textually identical up to those two values. -/
def fluid_update (self_id : Nat) (self_density : Int) (x y : Int)
    (w : World) (r : Rng) : World × Rng :=
  -- 1. straight-down fall
  let below := get_material_at w x (y + 1)
  if (match below with
      | some m => decide (density m < self_density)
      | none => false) then
    ((swap_pixels w x y x (y + 1)).2, r)
  else
    -- 2. diagonal-below spread
    let left_below := get_material_at w (x - 1) (y + 1)
    let right_below := get_material_at w (x + 1) (y + 1)
    let left_below_passable :=
      match left_below with
      | some m => decide (density m < self_density)
      | none => false
    let right_below_passable :=
      match right_below with
      | some m => decide (density m < self_density)
      | none => false
    if left_below_passable && right_below_passable then
      let d := randint 0 1 r
      if d.1 = 0 then ((swap_pixels w x y (x - 1) (y + 1)).2, d.2)
      else ((swap_pixels w x y (x + 1) (y + 1)).2, d.2)
    else if left_below_passable then ((swap_pixels w x y (x - 1) (y + 1)).2, r)
    else if right_below_passable then ((swap_pixels w x y (x + 1) (y + 1)).2, r)
    else
      -- 3. lateral flow, blocked when the cell above is the same material
      let above := get_material_at w x (y - 1)
      if (match above with
          | some m => decide (m = self_id)
          | none => false) then
        (w, r)
      else
        let left := get_material_at w (x - 1) y
        let right := get_material_at w (x + 1) y
        let left_passable :=
          match left with
          | some m => decide (density m < self_density)
          | none => false
        let right_passable :=
          match right with
          | some m => decide (density m < self_density)
          | none => false
        if left_passable && right_passable then
          let d := randint 0 1 r
          if d.1 = 0 then ((swap_pixels w x y (x - 1) y).2, d.2)
          else ((swap_pixels w x y (x + 1) y).2, d.2)
        else if left_passable then ((swap_pixels w x y (x - 1) y).2, r)
        else if right_passable then ((swap_pixels w x y (x + 1) y).2, r)
        else (w, r)

/-- `WaterMaterial.update` (id WATER, density 100). -/
def water_update (x y : Int) (w : World) (r : Rng) : World × Rng :=
  fluid_update WATER 100 x y w r

/-- `OilMaterial.update` (id OIL, density 50). -/
def oil_update (x y : Int) (w : World) (r : Rng) : World × Rng :=
  fluid_update OIL 50 x y w r

/-- `FireMaterial._move_lifetime`: pop the source key and store its value at
the destination key. -/
def move_lifetime (l : Lifetimes) (k1 k2 : Int × Int) : Lifetimes :=
  match lifetimes_get l k1 with
  | some v => lifetimes_set (lifetimes_erase l k1) k2 v
  | none => l

/-- The 8-neighborhood scan order of `FireMaterial._spread_fire`. -/
def fire_directions : List (Int × Int) :=
  [(-1, -1), (0, -1), (1, -1), (-1, 0), (1, 0), (-1, 1), (0, 1), (1, 1)]

/-- `FireMaterial._spread_fire`: each flammable neighbor ignites with
probability 0.3 (one stream draw per flammable neighbor). -/
def spread_fire (x y : Int) (w : World) (r : Rng) : World × Rng :=
  fire_directions.foldl
    (fun wr d =>
      let w := wr.1
      let r := wr.2
      let nx := x + d.1
      let ny := y + d.2
      match get_material_at w nx ny with
      | none => (w, r)
      | some neighbor =>
        if flammable neighbor then
          let p := rand_ignite r
          if p.1 then ((try_set w nx ny FIRE).2, p.2) else (w, p.2)
        else (w, r))
    (w, r)

/-- The rise block at the end of `FireMaterial.update`: swap with the cell
above when it is Empty (returning whether or not the swap succeeds), else
with an Empty diagonal-above cell, relocating the lifetime entry on every
successful swap.  Fire's density is -10. -/
def fire_rise (x y : Int) (w : World) (r : Rng) : World × Rng :=
  let above := get_material_at w x (y - 1)
  if (match above with
      | some m => decide (density m > -10)
      | none => false) then
    if (match above with
        | some m => decide (m = EMPTY)
        | none => false) then
      let s := swap_pixels w x y x (y - 1)
      if s.1 then
        ({ s.2 with lifetimes := move_lifetime s.2.lifetimes (x, y) (x, y - 1) }, r)
      else (s.2, r)
    else fire_rise_diag x y w r
  else fire_rise_diag x y w r
where
  /-- The diagonal-above attempt of the rise block. -/
  fire_rise_diag (x y : Int) (w : World) (r : Rng) : World × Rng :=
    let left_above := get_material_at w (x - 1) (y - 1)
    let right_above := get_material_at w (x + 1) (y - 1)
    let left_passable :=
      match left_above with
      | some m => decide (m = EMPTY)
      | none => false
    let right_passable :=
      match right_above with
      | some m => decide (m = EMPTY)
      | none => false
    if left_passable && right_passable then
      let d := randint 0 1 r
      if d.1 = 0 then
        let s := swap_pixels w x y (x - 1) (y - 1)
        if s.1 then
          ({ s.2 with lifetimes := move_lifetime s.2.lifetimes (x, y) (x - 1, y - 1) }, d.2)
        else (s.2, d.2)
      else
        let s := swap_pixels w x y (x + 1) (y - 1)
        if s.1 then
          ({ s.2 with lifetimes := move_lifetime s.2.lifetimes (x, y) (x + 1, y - 1) }, d.2)
        else (s.2, d.2)
    else if left_passable then
      let s := swap_pixels w x y (x - 1) (y - 1)
      if s.1 then
        ({ s.2 with lifetimes := move_lifetime s.2.lifetimes (x, y) (x - 1, y - 1) }, r)
      else (s.2, r)
    else if right_passable then
      let s := swap_pixels w x y (x + 1) (y - 1)
      if s.1 then
        ({ s.2 with lifetimes := move_lifetime s.2.lifetimes (x, y) (x + 1, y - 1) }, r)
      else (s.2, r)
    else (w, r)

/-- `FireMaterial.update`: initialize the lifetime entry on first sight of
the key, decrement it, extinguish at zero, else spread then rise. -/
def fire_update (x y : Int) (w : World) (r : Rng) : World × Rng :=
  let key : Int × Int := (x, y)
  -- if key not in _lifetimes: _lifetimes[key] = random.randint(15, 30)
  let init :=
    match lifetimes_get w.lifetimes key with
    | some _ => (w.lifetimes, r)
    | none =>
      (lifetimes_set w.lifetimes key ((randint 15 30 r).1 : Int),
        (randint 15 30 r).2)
  -- _lifetimes[key] -= 1  (key is present here by construction)
  let lt1 := lifetimes_set init.1 key ((lifetimes_get init.1 key).getD 0 - 1)
  if (lifetimes_get lt1 key).getD 0 ≤ 0 then
    let w2 := { w with lifetimes := lifetimes_erase lt1 key }
    ((try_set w2 x y EMPTY).2, init.2)
  else
    let w2 := { w with lifetimes := lt1 }
    let sp := spread_fire x y w2 init.2
    fire_rise x y sp.1 sp.2

/-- `Material.update` dispatch: `EmptyMaterial` and `WallMaterial` are
no-ops; the other four delegate to their rules. -/
def material_update (pid : Nat) (x y : Int) (w : World) (r : Rng) :
    World × Rng :=
  if pid = SAND then sand_update x y w r
  else if pid = WATER then water_update x y w r
  else if pid = OIL then oil_update x y w r
  else if pid = FIRE then fire_update x y w r
  else (w, r)

/-- The per-cell body of the scan loop in `World._update_pass`: skip
resolved cells, skip ids outside the pass's target set, skip unregistered
ids, otherwise invoke the material's update rule. -/
def visit (t : List Nat) (x y : Nat) (wr : World × Rng) : World × Rng :=
  let w := wr.1
  if cellB w.moved x y then wr
  else
    let pid := cell w.cur x y
    if pid ∈ t then
      match registry_get (pid : Int) with
      | some m => material_update m (x : Int) (y : Int) w wr.2
      | none => wr
    else wr

/-- `World._update_pass`: scan rows bottom-to-top; within a row scan
columns left-to-right on even frames, right-to-left on odd frames. -/
def update_pass (t : List Nat) (w : World) (r : Rng) : World × Rng :=
  ((List.range w.height).reverse).foldl
    (fun wr y =>
      let x_range :=
        if wr.1.frame % 2 = 0 then List.range wr.1.width
        else (List.range wr.1.width).reverse
      x_range.foldl (fun wr2 x => visit t x y wr2) wr)
    (w, r)

/-- `World.update`: copy cur into nxt, reset the moved mask, run the Fire,
Sand and Water/Oil passes in that order, then swap the buffers and advance
the frame counter.  (For a well-formed world the Python row-by-row slice
copy of cur into nxt and the element-by-element flag reset amount to the
whole-buffer assignments used here.) -/
def update (w : World) (r : Rng) : World × Rng :=
  let w0 : World :=
    { w with nxt := w.cur, moved := create_flag_grid w.width w.height }
  let p1 := update_pass [FIRE] w0 r
  let p2 := update_pass [SAND] p1.1 p1.2
  let p3 := update_pass [WATER, OIL] p2.1 p2.2
  ({ p3.1 with cur := p3.1.nxt, nxt := p3.1.cur, frame := p3.1.frame + 1 },
    p3.2)

/-!
The scan order of a pass, written from the specification's words: rows from
the bottom (y = height - 1) up to the top (y = 0); within a row, columns
left-to-right on even frames and right-to-left on odd frames.
-/

/-- Claim-side definition of the visitation order of one pass. -/
def scan_coords_claim (h wd fc : Nat) : List (Nat × Nat) :=
  ((List.range h).reverse).flatMap (fun y =>
    (if fc % 2 = 0 then List.range wd
     else (List.range wd).reverse).map (fun x => (x, y)))

/-- Well-formedness of a world: the three buffers have exactly `height`
rows of exactly `width` cells.  Every world the Python constructor and
public API can produce satisfies this. -/
def wf (w : World) : Bool :=
  w.cur.length = w.height && w.cur.all (fun row => row.length = w.width) &&
  w.nxt.length = w.height && w.nxt.all (fun row => row.length = w.width) &&
  w.moved.length = w.height && w.moved.all (fun row => row.length = w.width)

/-!
Claim-side rule definitions, written from the specification's words (they
are compared with the source-translated rules in the refinement theorems
below).
-/

/-- A neighboring cell is passable for a mover of density d exactly when it
exists and its material has strictly lower density (claim wording). -/
def passable_claim (w : World) (x y : Int) (d : Int) : Bool :=
  match get_material_at w x y with
  | some m => decide (density m < d)
  | none => false

/-- The cell directly above holds the same material as the mover (the
anti-gap gate of the fluid rules, claim wording). -/
def same_material_above_claim (w : World) (x y : Int) (self_id : Nat) : Bool :=
  match get_material_at w x (y - 1) with
  | some m => decide (m = self_id)
  | none => false

/-- Claim C5's Sand rule: if the cell directly below exists and is strictly
lighter than Sand (density 150), swap with it and stop; otherwise the two
diagonal-below cells are each passable exactly when they exist and are
strictly lighter; both passable: uniform random choice (draw 0 picks left);
exactly one: that one; neither: do nothing this tick. -/
def sand_update_claim (x y : Int) (w : World) (r : Rng) : World × Rng :=
  if passable_claim w x (y + 1) 150 then ((swap_pixels w x y x (y + 1)).2, r)
  else
    let lp := passable_claim w (x - 1) (y + 1) 150
    let rp := passable_claim w (x + 1) (y + 1) 150
    if lp && rp then
      let d := randint 0 1 r
      if d.1 = 0 then ((swap_pixels w x y (x - 1) (y + 1)).2, d.2)
      else ((swap_pixels w x y (x + 1) (y + 1)).2, d.2)
    else if lp then ((swap_pixels w x y (x - 1) (y + 1)).2, r)
    else if rp then ((swap_pixels w x y (x + 1) (y + 1)).2, r)
    else (w, r)

/-- Claim C6's fluid rule (Water with density 100, Oil with density 50):
(1) swap straight down if the cell below is strictly lighter; (2) else swap
into a strictly lighter diagonal-below cell, uniform random tie-break when
both qualify; (3) else, only when the cell directly above is not the same
material, attempt a lateral swap into a strictly lighter neighbor, uniform
random tie-break when both sides qualify. -/
def fluid_update_claim (self_id : Nat) (self_density : Int) (x y : Int)
    (w : World) (r : Rng) : World × Rng :=
  if passable_claim w x (y + 1) self_density then
    ((swap_pixels w x y x (y + 1)).2, r)
  else
    let lp := passable_claim w (x - 1) (y + 1) self_density
    let rp := passable_claim w (x + 1) (y + 1) self_density
    if lp && rp then
      let d := randint 0 1 r
      if d.1 = 0 then ((swap_pixels w x y (x - 1) (y + 1)).2, d.2)
      else ((swap_pixels w x y (x + 1) (y + 1)).2, d.2)
    else if lp then ((swap_pixels w x y (x - 1) (y + 1)).2, r)
    else if rp then ((swap_pixels w x y (x + 1) (y + 1)).2, r)
    else if same_material_above_claim w x y self_id then (w, r)
    else
      let ll := passable_claim w (x - 1) y self_density
      let rr := passable_claim w (x + 1) y self_density
      if ll && rr then
        let d := randint 0 1 r
        if d.1 = 0 then ((swap_pixels w x y (x - 1) y).2, d.2)
        else ((swap_pixels w x y (x + 1) y).2, d.2)
      else if ll then ((swap_pixels w x y (x - 1) y).2, r)
      else if rr then ((swap_pixels w x y (x + 1) y).2, r)
      else (w, r)

/-- Claim C4's ignition stage: each of the 8 neighbors whose material is
flammable is offered an independent chance (probability 3/10 in the random
model) of being overwritten to Fire. -/
def ignite_neighbors_claim (x y : Int) (w : World) (r : Rng) : World × Rng :=
  fire_directions.foldl
    (fun wr d =>
      let w := wr.1
      let r := wr.2
      let nx := x + d.1
      let ny := y + d.2
      match get_material_at w nx ny with
      | none => (w, r)
      | some neighbor =>
        if flammable neighbor then
          let p := rand_ignite r
          if p.1 then ((try_set w nx ny FIRE).2, p.2) else (w, p.2)
        else (w, r))
    (w, r)

/-- Claim C4's diagonal rise: one of the two diagonal-above cells, only if
Empty, uniform random tie-break when both qualify; the lifetime entry is
relocated on every successful move. -/
def rise_diag_claim (x y : Int) (w : World) (r : Rng) : World × Rng :=
  let lp :=
    match get_material_at w (x - 1) (y - 1) with
    | some m => decide (m = EMPTY)
    | none => false
  let rp :=
    match get_material_at w (x + 1) (y - 1) with
    | some m => decide (m = EMPTY)
    | none => false
  if lp && rp then
    let d := randint 0 1 r
    if d.1 = 0 then
      let s := swap_pixels w x y (x - 1) (y - 1)
      if s.1 then
        ({ s.2 with lifetimes := move_lifetime s.2.lifetimes (x, y) (x - 1, y - 1) }, d.2)
      else (s.2, d.2)
    else
      let s := swap_pixels w x y (x + 1) (y - 1)
      if s.1 then
        ({ s.2 with lifetimes := move_lifetime s.2.lifetimes (x, y) (x + 1, y - 1) }, d.2)
      else (s.2, d.2)
  else if lp then
    let s := swap_pixels w x y (x - 1) (y - 1)
    if s.1 then
      ({ s.2 with lifetimes := move_lifetime s.2.lifetimes (x, y) (x - 1, y - 1) }, r)
    else (s.2, r)
  else if rp then
    let s := swap_pixels w x y (x + 1) (y - 1)
    if s.1 then
      ({ s.2 with lifetimes := move_lifetime s.2.lifetimes (x, y) (x + 1, y - 1) }, r)
    else (s.2, r)
  else (w, r)

/-- Claim C4's rise stage: swap with the cell directly above only if that
cell is Empty (relocating the lifetime entry on success), else try the
diagonal-above cells. -/
def rise_claim (x y : Int) (w : World) (r : Rng) : World × Rng :=
  if (match get_material_at w x (y - 1) with
      | some m => decide (m = EMPTY)
      | none => false) then
    let s := swap_pixels w x y x (y - 1)
    if s.1 then
      ({ s.2 with lifetimes := move_lifetime s.2.lifetimes (x, y) (x, y - 1) }, r)
    else (s.2, r)
  else rise_diag_claim x y w r

/-- Claim C4's Fire rule: on the first tick at a coordinate assign a uniform
random lifetime in [15, 30]; decrement each tick; at zero delete the entry,
overwrite the cell to Empty and stop; otherwise ignite flammable neighbors
and then rise. -/
def fire_update_claim (x y : Int) (w : World) (r : Rng) : World × Rng :=
  let key : Int × Int := (x, y)
  let cur_life : Int × Rng :=
    match lifetimes_get w.lifetimes key with
    | some v => (v, r)
    | none => (((randint 15 30 r).1 : Int), (randint 15 30 r).2)
  let life := cur_life.1 - 1
  if life ≤ 0 then
    ((try_set { w with lifetimes := lifetimes_erase w.lifetimes key }
      x y EMPTY).2, cur_life.2)
  else
    let w1 := { w with lifetimes := lifetimes_set w.lifetimes key life }
    let sp := ignite_neighbors_claim x y w1 cur_life.2
    rise_claim x y sp.1 sp.2

/-!
Event views of the rules, for the density-monotonicity claim: each function
computes, with the source rule's decision structure, the destination of the
swap the rule requests (if any).
-/

/-- The swap destination `SandMaterial.update` requests. -/
def sand_swap_dest (x y : Int) (w : World) (r : Rng) :
    Option (Int × Int) × Rng :=
  let self_density : Int := 150
  let diagonals : Unit → Option (Int × Int) × Rng := fun _ =>
    let lp :=
      match get_material_at w (x - 1) (y + 1) with
      | some m => decide (density m < self_density)
      | none => false
    let rp :=
      match get_material_at w (x + 1) (y + 1) with
      | some m => decide (density m < self_density)
      | none => false
    if lp && rp then
      let d := randint 0 1 r
      if d.1 = 0 then (some (x - 1, y + 1), d.2) else (some (x + 1, y + 1), d.2)
    else if lp then (some (x - 1, y + 1), r)
    else if rp then (some (x + 1, y + 1), r)
    else ((none : Option (Int × Int)), r)
  match get_material_at w x (y + 1) with
  | some below =>
    if density below < self_density then (some (x, y + 1), r)
    else diagonals ()
  | none => diagonals ()

/-- The swap destination the Water/Oil rule requests. -/
def fluid_swap_dest (self_id : Nat) (self_density : Int) (x y : Int)
    (w : World) (r : Rng) : Option (Int × Int) × Rng :=
  if (match get_material_at w x (y + 1) with
      | some m => decide (density m < self_density)
      | none => false) = true then
    (some (x, y + 1), r)
  else
    let lp :=
      match get_material_at w (x - 1) (y + 1) with
      | some m => decide (density m < self_density)
      | none => false
    let rp :=
      match get_material_at w (x + 1) (y + 1) with
      | some m => decide (density m < self_density)
      | none => false
    if lp && rp then
      let d := randint 0 1 r
      if d.1 = 0 then (some (x - 1, y + 1), d.2) else (some (x + 1, y + 1), d.2)
    else if lp then (some (x - 1, y + 1), r)
    else if rp then (some (x + 1, y + 1), r)
    else
      if (match get_material_at w x (y - 1) with
          | some m => decide (m = self_id)
          | none => false) = true then
        ((none : Option (Int × Int)), r)
      else
        let ll :=
          match get_material_at w (x - 1) y with
          | some m => decide (density m < self_density)
          | none => false
        let rr :=
          match get_material_at w (x + 1) y with
          | some m => decide (density m < self_density)
          | none => false
        if ll && rr then
          let d := randint 0 1 r
          if d.1 = 0 then (some (x - 1, y), d.2) else (some (x + 1, y), d.2)
        else if ll then (some (x - 1, y), r)
        else if rr then (some (x + 1, y), r)
        else ((none : Option (Int × Int)), r)

/-- The swap destination the rise block of `FireMaterial.update` requests. -/
def fire_rise_dest (x y : Int) (w : World) (r : Rng) :
    Option (Int × Int) × Rng :=
  let diag : Unit → Option (Int × Int) × Rng := fun _ =>
    let lp :=
      match get_material_at w (x - 1) (y - 1) with
      | some m => decide (m = EMPTY)
      | none => false
    let rp :=
      match get_material_at w (x + 1) (y - 1) with
      | some m => decide (m = EMPTY)
      | none => false
    if lp && rp then
      let d := randint 0 1 r
      if d.1 = 0 then (some (x - 1, y - 1), d.2) else (some (x + 1, y - 1), d.2)
    else if lp then (some (x - 1, y - 1), r)
    else if rp then (some (x + 1, y - 1), r)
    else ((none : Option (Int × Int)), r)
  if (match get_material_at w x (y - 1) with
      | some m => decide (density m > -10)
      | none => false) = true then
    if (match get_material_at w x (y - 1) with
        | some m => decide (m = EMPTY)
        | none => false) = true then
      (some (x, y - 1), r)
    else diag ()
  else diag ()

/-!
Scenario 1 of the specification: a single Sand cell in a 1-wide column.
-/

/-- A 1-wide column grid of height H with Sand at row k, Empty elsewhere. -/
def col (H k : Nat) : Grid :=
  (List.range H).map (fun i => [if i = k then SAND else EMPTY])

/-- The moved mask of a 1-wide column of height H with rows k and k+1
resolved. -/
def moved2col (H k : Nat) : FlagGrid :=
  (List.range H).map (fun i => [decide (i = k ∨ i = k + 1)])

/-- The Scenario-1 start world: a single Sand cell placed at row 0 of an
otherwise empty 1-wide column of height H. -/
def sand_column (H : Nat) : World := (set_pixel (mkWorld 1 H) 0 0 SAND).2

/-- n calls to `step()`. -/
def stepN (n : Nat) (s : World × Rng) : World × Rng :=
  (fun p => update p.1 p.2)^[n] s

/-- The worlds reached while a single Sand cell falls down a 1-wide column:
Sand at row k of a height-H column, with arbitrary next buffer and moved
mask (both fully rewritten by the next step). -/
def colWorld (H k f : Nat) (nx : Grid) (mv : FlagGrid) : World :=
  { width := 1, height := H, cur := col H k, nxt := nx, moved := mv,
    frame := f, lifetimes := [] }

/-- A concrete world with stale state in every buffer and one fire-lifetime
entry, used to exhibit the behavior of `clear()`. -/
def c7_world : World :=
  { width := 1, height := 1, cur := [[SAND]], nxt := [[SAND]],
    moved := [[true]], frame := 3, lifetimes := [((0, 0), 5)] }

/-- A 1-wide, 2-tall world with Fire at the bottom cell and Empty above it:
the Fire rule's rise swaps the Fire with the strictly denser Empty cell. -/
def c8_world : World :=
  { width := 1, height := 2, cur := [[EMPTY], [FIRE]], nxt := [[EMPTY], [FIRE]],
    moved := [[false], [false]], frame := 0, lifetimes := [] }

/-!
Basic lemmas about the grid and lifetime-map operations.
-/

theorem getD_set_self {α : Type} (l : List α) (n : Nat) (a d : α)
    (h : n < l.length) : (l.set n a).getD n d = a := by
  rw [List.getD_eq_getElem?_getD, List.getElem?_set_self h]
  rfl

theorem getD_set_ne {α : Type} (l : List α) (m n : Nat) (a d : α)
    (h : m ≠ n) : (l.set m a).getD n d = l.getD n d := by
  rw [List.getD_eq_getElem?_getD, List.getElem?_set_ne h,
    ← List.getD_eq_getElem?_getD]

theorem getD_replicate {α : Type} (n m : Nat) (a d : α) (h : m < n) :
    (List.replicate n a).getD m d = a := by
  rw [List.getD_eq_getElem?_getD, List.getElem?_replicate, if_pos h]
  rfl

theorem cell_setCell_self (g : Grid) (x y v : Nat)
    (hy : y < g.length) (hx : x < (g.getD y []).length) :
    cell (setCell g x y v) x y = v := by
  unfold cell setCell
  rw [getD_set_self _ _ _ _ hy, getD_set_self _ _ _ _ hx]

theorem cell_setCell_ne (g : Grid) (x y x2 y2 v : Nat)
    (h : (x2, y2) ≠ (x, y)) : cell (setCell g x y v) x2 y2 = cell g x2 y2 := by
  unfold cell setCell
  by_cases hy : y = y2
  · subst hy
    have hx : x ≠ x2 := by
      intro hx; exact h (by rw [hx])
    by_cases hylen : y < g.length
    · rw [getD_set_self _ _ _ _ hylen, getD_set_ne _ _ _ _ _ hx]
    · rw [List.set_eq_of_length_le (Nat.le_of_not_lt hylen)]
  · rw [getD_set_ne _ _ _ _ _ hy]

theorem cellB_setFlag_self (g : FlagGrid) (x y : Nat) (b : Bool)
    (hy : y < g.length) (hx : x < (g.getD y []).length) :
    cellB (setFlag g x y b) x y = b := by
  unfold cellB setFlag
  rw [getD_set_self _ _ _ _ hy, getD_set_self _ _ _ _ hx]

theorem cellB_setFlag_ne (g : FlagGrid) (x y x2 y2 : Nat) (b : Bool)
    (h : (x2, y2) ≠ (x, y)) :
    cellB (setFlag g x y b) x2 y2 = cellB g x2 y2 := by
  unfold cellB setFlag
  by_cases hy : y = y2
  · subst hy
    have hx : x ≠ x2 := by
      intro hx; exact h (by rw [hx])
    by_cases hylen : y < g.length
    · rw [getD_set_self _ _ _ _ hylen, getD_set_ne _ _ _ _ _ hx]
    · rw [List.set_eq_of_length_le (Nat.le_of_not_lt hylen)]
  · rw [getD_set_ne _ _ _ _ _ hy]

theorem cell_create_empty_grid (wd h x y : Nat) (hx : x < wd) (hy : y < h) :
    cell (create_empty_grid wd h) x y = EMPTY := by
  unfold cell create_empty_grid
  rw [getD_replicate _ _ _ _ hy, getD_replicate _ _ _ _ hx]

theorem cellB_create_flag_grid (wd h x y : Nat) :
    cellB (create_flag_grid wd h) x y = false := by
  unfold cellB create_flag_grid
  simp only [List.getD_eq_getElem?_getD, List.getElem?_replicate]
  by_cases hy : y < h <;> simp only [hy, if_true, if_false] <;>
    by_cases hx : x < wd <;> simp [hx]

theorem lifetimes_get_set_self (l : Lifetimes) (k : Int × Int) (v : Int) :
    lifetimes_get (lifetimes_set l k v) k = some v := by
  induction l with
  | nil => simp [lifetimes_set, lifetimes_get]
  | cons p t ih =>
    by_cases h : p.1 = k
    · simp [lifetimes_set, lifetimes_get, h]
    · simp [lifetimes_set, lifetimes_get, h, ih]

theorem lifetimes_get_set_ne (l : Lifetimes) (k k2 : Int × Int) (v : Int)
    (h : k ≠ k2) : lifetimes_get (lifetimes_set l k v) k2 = lifetimes_get l k2 := by
  induction l with
  | nil => simp [lifetimes_set, lifetimes_get, h]
  | cons p t ih =>
    by_cases hp : p.1 = k
    · simp [lifetimes_set, lifetimes_get, hp, h]
    · simp [lifetimes_set, lifetimes_get, hp, ih]

theorem lifetimes_get_erase_self (l : Lifetimes) (k : Int × Int) :
    lifetimes_get (lifetimes_erase l k) k = none := by
  induction l with
  | nil => simp [lifetimes_erase, lifetimes_get]
  | cons p t ih =>
    by_cases h : p.1 = k
    · simpa [lifetimes_erase, List.filter_cons, h] using ih
    · simpa [lifetimes_erase, List.filter_cons, lifetimes_get, h] using ih

theorem lifetimes_get_erase_ne (l : Lifetimes) (k k2 : Int × Int)
    (h : k ≠ k2) : lifetimes_get (lifetimes_erase l k) k2 = lifetimes_get l k2 := by
  induction l with
  | nil => simp [lifetimes_erase, lifetimes_get]
  | cons p t ih =>
    by_cases hp : p.1 = k
    · have hp2 : ¬ p.1 = k2 := by rw [hp]; exact h
      simpa [lifetimes_erase, List.filter_cons, lifetimes_get, hp, hp2, h] using ih
    · by_cases hp2 : p.1 = k2
      · simp [lifetimes_erase, List.filter_cons, lifetimes_get, hp, hp2, Ne.symm h]
      · simpa [lifetimes_erase, List.filter_cons, lifetimes_get, hp, hp2] using ih

/-- `_move_lifetime` removes the entry at the source key (when the keys
differ) and makes the destination carry the source's value. -/
theorem move_lifetime_spec (l : Lifetimes) (k1 k2 : Int × Int) (v : Int)
    (hne : k1 ≠ k2) (h : lifetimes_get l k1 = some v) :
    lifetimes_get (move_lifetime l k1 k2) k1 = none ∧
    lifetimes_get (move_lifetime l k1 k2) k2 = some v := by
  unfold move_lifetime
  rw [h]
  constructor
  · rw [lifetimes_get_set_ne _ _ _ _ (Ne.symm hne), lifetimes_get_erase_self]
  · rw [lifetimes_get_set_self]

/-!
Well-formedness and bounds-check lemmas.
-/

theorem getD_mem {α : Type} (l : List α) (n : Nat) (d : α)
    (h : n < l.length) : l.getD n d ∈ l := by
  rw [List.getD_eq_getElem?_getD, List.getElem?_eq_getElem h]
  exact List.getElem_mem h

theorem wf_spec (w : World) (h : wf w = true) :
    w.cur.length = w.height ∧ (∀ row ∈ w.cur, row.length = w.width) ∧
    w.nxt.length = w.height ∧ (∀ row ∈ w.nxt, row.length = w.width) ∧
    w.moved.length = w.height ∧ (∀ row ∈ w.moved, row.length = w.width) := by
  unfold wf at h
  simp only [Bool.and_eq_true, decide_eq_true_eq, List.all_eq_true] at h
  exact ⟨h.1.1.1.1.1, h.1.1.1.1.2, h.1.1.1.2, h.1.1.2, h.1.2, h.2⟩

theorem valid_spec (w : World) (x y : Int)
    (h : is_valid_position w x y = true) :
    0 ≤ x ∧ 0 ≤ y ∧ x.toNat < w.width ∧ y.toNat < w.height := by
  unfold is_valid_position at h
  simp only [Bool.and_eq_true, decide_eq_true_eq] at h
  obtain ⟨⟨⟨hx0, hxw⟩, hy0⟩, hyh⟩ := h
  exact ⟨hx0, hy0, (Int.toNat_lt hx0).mpr hxw, (Int.toNat_lt hy0).mpr hyh⟩

theorem valid_of_bounds (w : World) (x y : Int)
    (hx0 : 0 ≤ x) (hy0 : 0 ≤ y) (hx : x.toNat < w.width)
    (hy : y.toNat < w.height) : is_valid_position w x y = true := by
  unfold is_valid_position
  simp only [Bool.and_eq_true, decide_eq_true_eq]
  exact ⟨⟨⟨hx0, (Int.toNat_lt hx0).mp hx⟩, hy0⟩, (Int.toNat_lt hy0).mp hy⟩

/-- Row length of a well-formed buffer. -/
theorem wf_row_len (w : World) (h : wf w = true) (y : Nat)
    (hy : y < w.height) :
    (w.cur.getD y []).length = w.width ∧
    (w.nxt.getD y []).length = w.width ∧
    (w.moved.getD y []).length = w.width := by
  obtain ⟨h1, h2, h3, h4, h5, h6⟩ := wf_spec w h
  exact ⟨h2 _ (getD_mem _ _ _ (by rw [h1]; exact hy)),
    h4 _ (getD_mem _ _ _ (by rw [h3]; exact hy)),
    h6 _ (getD_mem _ _ _ (by rw [h5]; exact hy))⟩

/-!
Preservation: no material rule or mutation primitive modifies the current
buffer, the dimensions, or the frame counter; only `update` itself swaps
the buffers and advances the frame.
-/

/-- The fields of a world that no mutation primitive and no material rule
changes: dimensions, current buffer, frame counter. -/
def same_core (w w2 : World) : Prop :=
  w2.width = w.width ∧ w2.height = w.height ∧ w2.cur = w.cur ∧
  w2.frame = w.frame

theorem same_core_refl (w : World) : same_core w w := ⟨rfl, rfl, rfl, rfl⟩

theorem same_core_trans {w1 w2 w3 : World} (h1 : same_core w1 w2)
    (h2 : same_core w2 w3) : same_core w1 w3 :=
  ⟨h2.1.trans h1.1, h2.2.1.trans h1.2.1, h2.2.2.1.trans h1.2.2.1,
    h2.2.2.2.trans h1.2.2.2⟩

theorem swap_pixels_core (w : World) (a b c d : Int) :
    same_core w (swap_pixels w a b c d).2 := by
  unfold swap_pixels
  split
  · exact same_core_refl w
  · split
    · exact same_core_refl w
    · exact ⟨rfl, rfl, rfl, rfl⟩

theorem try_move_core (w : World) (a b c d : Int) :
    same_core w (try_move w a b c d).2 := by
  unfold try_move
  split
  · exact same_core_refl w
  · split
    · exact same_core_refl w
    · exact ⟨rfl, rfl, rfl, rfl⟩

theorem try_set_core (w : World) (a b : Int) (v : Nat) :
    same_core w (try_set w a b v).2 := by
  unfold try_set
  split
  · exact same_core_refl w
  · split
    · exact same_core_refl w
    · exact ⟨rfl, rfl, rfl, rfl⟩

theorem foldl_core {α : Type} (f : World × Rng → α → World × Rng)
    (hf : ∀ s a, same_core s.1 (f s a).1) :
    ∀ (l : List α) (s : World × Rng), same_core s.1 ((l.foldl f s).1) := by
  intro l
  induction l with
  | nil => intro s; exact same_core_refl _
  | cons a t ih =>
    intro s
    exact same_core_trans (hf s a) (ih (f s a))

theorem sand_update_core (x y : Int) (w : World) (r : Rng) :
    same_core w (sand_update x y w r).1 := by
  unfold sand_update
  dsimp only
  repeat' split
  all_goals
    first
    | exact swap_pixels_core _ _ _ _ _
    | exact same_core_refl w

theorem fluid_update_core (i : Nat) (sd : Int) (x y : Int) (w : World)
    (r : Rng) : same_core w (fluid_update i sd x y w r).1 := by
  unfold fluid_update
  dsimp only
  repeat' split
  all_goals
    first
    | exact swap_pixels_core _ _ _ _ _
    | exact same_core_refl w

theorem spread_fire_core (x y : Int) (w : World) (r : Rng) :
    same_core w (spread_fire x y w r).1 := by
  unfold spread_fire
  exact foldl_core _
    (by
      intro s a
      dsimp only
      repeat' split
      all_goals
        first
        | exact try_set_core _ _ _ _
        | exact same_core_refl _)
    fire_directions (w, r)

theorem fire_rise_diag_core (x y : Int) (w : World) (r : Rng) :
    same_core w (fire_rise.fire_rise_diag x y w r).1 := by
  unfold fire_rise.fire_rise_diag
  dsimp only
  repeat' split
  all_goals
    first
    | exact same_core_trans (swap_pixels_core _ _ _ _ _) ⟨rfl, rfl, rfl, rfl⟩
    | exact swap_pixels_core _ _ _ _ _
    | exact same_core_refl _

theorem fire_rise_core (x y : Int) (w : World) (r : Rng) :
    same_core w (fire_rise x y w r).1 := by
  unfold fire_rise
  dsimp only
  repeat' split
  all_goals
    first
    | exact same_core_trans (swap_pixels_core _ _ _ _ _) ⟨rfl, rfl, rfl, rfl⟩
    | exact swap_pixels_core _ _ _ _ _
    | exact fire_rise_diag_core _ _ _ _

theorem fire_tail_core (x y : Int) (w w1 : World) (r1 : Rng)
    (h : same_core w w1) :
    same_core w
      (fire_rise x y (spread_fire x y w1 r1).1 (spread_fire x y w1 r1).2).1 :=
  same_core_trans h
    (same_core_trans (spread_fire_core x y w1 r1)
      (fire_rise_core x y (spread_fire x y w1 r1).1 (spread_fire x y w1 r1).2))

theorem try_set_after_core (x y : Int) (w w1 : World) (v : Nat)
    (h : same_core w w1) : same_core w (try_set w1 x y v).2 :=
  same_core_trans h (try_set_core w1 x y v)

theorem fire_update_core (x y : Int) (w : World) (r : Rng) :
    same_core w (fire_update x y w r).1 := by
  unfold fire_update
  dsimp only
  split
  · split
    all_goals dsimp only
    all_goals exact try_set_after_core x y w _ EMPTY ⟨rfl, rfl, rfl, rfl⟩
  · split
    all_goals dsimp only
    all_goals exact fire_tail_core x y w _ _ ⟨rfl, rfl, rfl, rfl⟩

theorem water_update_core (x y : Int) (w : World) (r : Rng) :
    same_core w (water_update x y w r).1 :=
  fluid_update_core WATER 100 x y w r

theorem oil_update_core (x y : Int) (w : World) (r : Rng) :
    same_core w (oil_update x y w r).1 :=
  fluid_update_core OIL 50 x y w r

theorem material_update_core (pid : Nat) (x y : Int) (w : World) (r : Rng) :
    same_core w (material_update pid x y w r).1 := by
  unfold material_update
  repeat' split
  all_goals
    first
    | exact sand_update_core _ _ _ _
    | exact water_update_core _ _ _ _
    | exact oil_update_core _ _ _ _
    | exact fire_update_core _ _ _ _
    | exact same_core_refl w

theorem visit_core (t : List Nat) (x y : Nat) (s : World × Rng) :
    same_core s.1 ((visit t x y s).1) := by
  unfold visit
  dsimp only
  repeat' split
  all_goals
    first
    | exact material_update_core _ _ _ _ _
    | exact same_core_refl _

theorem update_pass_core (t : List Nat) (w : World) (r : Rng) :
    same_core w (update_pass t w r).1 := by
  unfold update_pass
  exact
    foldl_core _
      (fun s a => foldl_core _ (fun s2 a2 => visit_core t a2 a s2) _ s)
      _ (w, r)

theorem pass_rows_aux (t : List Nat) (ys : List Nat) :
    ∀ (s : World × Rng) (wd fc : Nat), s.1.width = wd → s.1.frame = fc →
    ys.foldl
      (fun wr y =>
        (if wr.1.frame % 2 = 0 then List.range wr.1.width
         else (List.range wr.1.width).reverse).foldl
          (fun wr2 x => visit t x y wr2) wr) s =
    (ys.flatMap (fun y =>
      (if fc % 2 = 0 then List.range wd
       else (List.range wd).reverse).map (fun x => (x, y)))).foldl
      (fun wr c => visit t c.1 c.2 wr) s := by
  induction ys with
  | nil => intro s wd fc h1 h2; rfl
  | cons y ys ih =>
    intro s wd fc h1 h2
    rw [List.flatMap_cons, List.foldl_append, List.foldl_map]
    simp only [List.foldl_cons, h1, h2]
    have hinner :
        same_core s.1
          (((if fc % 2 = 0 then List.range wd
             else (List.range wd).reverse).foldl
            (fun wr2 x => visit t x y wr2) s).1) :=
      foldl_core _ (fun s2 a2 => visit_core t a2 y s2) _ s
    exact ih _ wd fc (hinner.1.trans h1) (hinner.2.2.2.trans h2)

/-- A single pass equals the fold of the per-cell body over the scan order
described by the specification. -/
theorem update_pass_eq_scan (t : List Nat) (w : World) (r : Rng) :
    update_pass t w r =
      (scan_coords_claim w.height w.width w.frame).foldl
        (fun wr c => visit t c.1 c.2 wr) (w, r) := by
  unfold update_pass scan_coords_claim
  exact pass_rows_aux t ((List.range w.height).reverse) (w, r) w.width
    w.frame rfl rfl

/-- The per-cell body does nothing at a resolved cell, and nothing at a cell
whose id is outside the pass's target set. -/
theorem visit_skips (t : List Nat) (x y : Nat) (s : World × Rng) :
    (cellB s.1.moved x y = true → visit t x y s = s) ∧
    (cell s.1.cur x y ∉ t → visit t x y s = s) := by
  constructor
  · intro h
    unfold visit
    simp only [h, if_true]
  · intro h
    unfold visit
    dsimp only
    by_cases hm : cellB s.1.moved x y
    · rw [if_pos hm]
    · rw [if_neg hm, if_neg (by simpa using h)]

/-- Claim C2: `step()` executes exactly three passes in the order Fire,
then Sand, then Water/Oil; each pass scans rows from the bottom
(y = height - 1) up to the top (y = 0) and, within a row, columns
left-to-right on even frames and right-to-left on odd frames; a cell's
update rule is invoked only if the cell is not yet resolved this frame and
its id is in the pass's target set; after the passes the buffers are
swapped and the frame counter increases by exactly 1. -/
theorem C2_step_structure :
    ∀ (w : World) (r : Rng),
      (∃ w1 r1 w2 r2 w3 r3,
        update_pass [FIRE]
          { w with nxt := w.cur,
                   moved := create_flag_grid w.width w.height } r = (w1, r1) ∧
        update_pass [SAND] w1 r1 = (w2, r2) ∧
        update_pass [WATER, OIL] w2 r2 = (w3, r3) ∧
        update w r =
          ({ w3 with cur := w3.nxt, nxt := w3.cur, frame := w3.frame + 1 },
            r3)) ∧
      ((update w r).1.frame = w.frame + 1) ∧
      (∀ t, update_pass t w r =
        (scan_coords_claim w.height w.width w.frame).foldl
          (fun wr c => visit t c.1 c.2 wr) (w, r)) ∧
      (∀ t x y (s : World × Rng),
        (cellB s.1.moved x y = true → visit t x y s = s) ∧
        (cell s.1.cur x y ∉ t → visit t x y s = s)) := by
  intro w r
  refine ⟨⟨_, _, _, _, _, _, rfl, rfl, rfl, rfl⟩, ?_, fun t => update_pass_eq_scan t w r,
    fun t x y s => visit_skips t x y s⟩
  have h0 : same_core w
      { w with nxt := w.cur, moved := create_flag_grid w.width w.height } :=
    ⟨rfl, rfl, rfl, rfl⟩
  have h1 := same_core_trans h0 (update_pass_core [FIRE]
    { w with nxt := w.cur, moved := create_flag_grid w.width w.height } r)
  have h2 := same_core_trans h1 (update_pass_core [SAND]
    (update_pass [FIRE]
      { w with nxt := w.cur, moved := create_flag_grid w.width w.height } r).1
    (update_pass [FIRE]
      { w with nxt := w.cur, moved := create_flag_grid w.width w.height } r).2)
  have h3 := same_core_trans h2 (update_pass_core [WATER, OIL]
    (update_pass [SAND]
      (update_pass [FIRE]
        { w with nxt := w.cur, moved := create_flag_grid w.width w.height } r).1
      (update_pass [FIRE]
        { w with nxt := w.cur, moved := create_flag_grid w.width w.height } r).2).1
    (update_pass [SAND]
      (update_pass [FIRE]
        { w with nxt := w.cur, moved := create_flag_grid w.width w.height } r).1
      (update_pass [FIRE]
        { w with nxt := w.cur, moved := create_flag_grid w.width w.height } r).2).2)
  exact congrArg (fun n => n + 1) h3.2.2.2

/-- Witness for C2 at a concrete world: the frame counter advances, and the
per-cell body skips a resolved cell. -/
theorem C2_step_structure_witness :
    (update (mkWorld 1 1) []).1.frame = (mkWorld 1 1).frame + 1 ∧
    visit [SAND] 0 0 ({ mkWorld 1 1 with moved := [[true]] }, []) =
      ({ mkWorld 1 1 with moved := [[true]] }, []) :=
  ⟨(C2_step_structure (mkWorld 1 1) []).2.1,
    ((C2_step_structure (mkWorld 1 1) []).2.2.2 [SAND] 0 0
      ({ mkWorld 1 1 with moved := [[true]] }, [])).1 (by decide)⟩

/-!
Cell-level facts about the setters, used by the primitive contracts.
-/

theorem cellB_true_bounds (m : FlagGrid) (x y : Nat)
    (h : cellB m x y = true) :
    y < m.length ∧ x < (m.getD y []).length := by
  unfold cellB at h
  by_cases hy : y < m.length
  · refine ⟨hy, ?_⟩
    by_cases hx : x < (m.getD y []).length
    · exact hx
    · rw [List.getD_eq_getElem?_getD (m.getD y []) x false,
        List.getElem?_eq_none (Nat.le_of_not_lt hx)] at h
      simp at h
  · rw [List.getD_eq_getElem?_getD m y [],
      List.getElem?_eq_none (Nat.le_of_not_lt hy)] at h
    simp at h

theorem setCell_row_len (g : Grid) (x y v n : Nat) :
    ((setCell g x y v).getD n []).length = (g.getD n []).length := by
  unfold setCell
  by_cases hn : y = n
  · subst hn
    by_cases hy : y < g.length
    · rw [getD_set_self _ _ _ _ hy, List.length_set]
    · rw [List.set_eq_of_length_le (Nat.le_of_not_lt hy)]
  · rw [getD_set_ne _ _ _ _ _ hn]

theorem setFlag_row_len (g : FlagGrid) (x y n : Nat) (b : Bool) :
    ((setFlag g x y b).getD n []).length = (g.getD n []).length := by
  unfold setFlag
  by_cases hn : y = n
  · subst hn
    by_cases hy : y < g.length
    · rw [getD_set_self _ _ _ _ hy, List.length_set]
    · rw [List.set_eq_of_length_le (Nat.le_of_not_lt hy)]
  · rw [getD_set_ne _ _ _ _ _ hn]

theorem setCell_length (g : Grid) (x y v : Nat) :
    (setCell g x y v).length = g.length := List.length_set g y _

theorem setFlag_length (g : FlagGrid) (x y : Nat) (b : Bool) :
    (setFlag g x y b).length = g.length := List.length_set g y _

/-- A flag already true stays true through any `setFlag _ _ _ true`. -/
theorem cellB_setFlag_true_mono (m : FlagGrid) (a b x y : Nat)
    (h : cellB m x y = true) : cellB (setFlag m a b true) x y = true := by
  by_cases he : (x, y) = (a, b)
  · obtain ⟨hx, hy⟩ := Prod.mk.injEq x y a b ▸ he
    subst hx; subst hy
    obtain ⟨h1, h2⟩ := cellB_true_bounds m x y h
    exact cellB_setFlag_self m x y true h1 h2
  · rw [cellB_setFlag_ne m a b x y true he]
    exact h

theorem failure_cond_iff (w : World) (x1 y1 x2 y2 : Int) :
    (is_updated w x1 y1 || is_updated w x2 y2) = true ↔
    (¬ (is_valid_position w x1 y1 = true ∧ is_valid_position w x2 y2 = true) ∨
      cellB w.moved x1.toNat y1.toNat = true ∨
      cellB w.moved x2.toNat y2.toNat = true) := by
  unfold is_updated
  by_cases h1 : is_valid_position w x1 y1 = true <;>
    by_cases h2 : is_valid_position w x2 y2 = true <;>
    simp [h1, h2]

/-- Claim C3: each mutation primitive returns false with no effect when any
involved coordinate is out of bounds or any involved cell is resolved;
otherwise it returns true, writes only the involved next-buffer slots (and
resolved marks), and marks every involved cell resolved; on success swap
exchanges the two current values into the next buffer, move writes the
source's current value at the destination and Empty at the source (the
source write prevailing when the two coincide), and overwrite writes the
given id at the target. -/
theorem C3_primitive_contracts (w : World) (x1 y1 x2 y2 : Int) (v : Nat)
    (hwf : wf w = true) :
    (((is_updated w x1 y1 || is_updated w x2 y2) = true →
        swap_pixels w x1 y1 x2 y2 = (false, w) ∧
        try_move w x1 y1 x2 y2 = (false, w)) ∧
      (is_updated w x1 y1 = true → try_set w x1 y1 v = (false, w))) ∧
    ((is_updated w x1 y1 || is_updated w x2 y2) = false →
      (swap_pixels w x1 y1 x2 y2).1 = true ∧
      (try_move w x1 y1 x2 y2).1 = true ∧
      (let w2 := (swap_pixels w x1 y1 x2 y2).2
       w2.cur = w.cur ∧ w2.frame = w.frame ∧ w2.lifetimes = w.lifetimes ∧
       cell w2.nxt x2.toNat y2.toNat = cell w.cur x1.toNat y1.toNat ∧
       cell w2.nxt x1.toNat y1.toNat = cell w.cur x2.toNat y2.toNat ∧
       is_updated w2 x1 y1 = true ∧ is_updated w2 x2 y2 = true ∧
       (∀ a b : Nat, (a, b) ≠ (x1.toNat, y1.toNat) →
          (a, b) ≠ (x2.toNat, y2.toNat) →
          cell w2.nxt a b = cell w.nxt a b ∧
          cellB w2.moved a b = cellB w.moved a b)) ∧
      (let w2 := (try_move w x1 y1 x2 y2).2
       w2.cur = w.cur ∧ w2.frame = w.frame ∧ w2.lifetimes = w.lifetimes ∧
       cell w2.nxt x1.toNat y1.toNat = EMPTY ∧
       ((x1.toNat, y1.toNat) ≠ (x2.toNat, y2.toNat) →
         cell w2.nxt x2.toNat y2.toNat = cell w.cur x1.toNat y1.toNat) ∧
       is_updated w2 x1 y1 = true ∧ is_updated w2 x2 y2 = true ∧
       (∀ a b : Nat, (a, b) ≠ (x1.toNat, y1.toNat) →
          (a, b) ≠ (x2.toNat, y2.toNat) →
          cell w2.nxt a b = cell w.nxt a b ∧
          cellB w2.moved a b = cellB w.moved a b))) ∧
    (is_updated w x1 y1 = false →
      (try_set w x1 y1 v).1 = true ∧
      (let w2 := (try_set w x1 y1 v).2
       w2.cur = w.cur ∧ w2.frame = w.frame ∧ w2.lifetimes = w.lifetimes ∧
       cell w2.nxt x1.toNat y1.toNat = v ∧
       is_updated w2 x1 y1 = true ∧
       (∀ a b : Nat, (a, b) ≠ (x1.toNat, y1.toNat) →
          cell w2.nxt a b = cell w.nxt a b ∧
          cellB w2.moved a b = cellB w.moved a b))) := by
  obtain ⟨hc, hcr, hn, hnr, hm, hmr⟩ := wf_spec w hwf
  constructor
  · constructor
    · intro h
      rw [failure_cond_iff] at h
      constructor
      · unfold swap_pixels
        rcases h with h | h | h
        · rw [if_pos (by simpa using h)]
        · split
          · rfl
          · rw [if_pos (by simp [h])]
        · split
          · rfl
          · rw [if_pos (by simp [h])]
      · unfold try_move
        rcases h with h | h | h
        · rw [if_pos (by simpa using h)]
        · split
          · rfl
          · rw [if_pos (by simp [h])]
        · split
          · rfl
          · rw [if_pos (by simp [h])]
    · intro h
      unfold is_updated at h
      unfold try_set
      split at h
      · rw [if_neg (by simpa using ‹is_valid_position w x1 y1 = true›),
          if_pos h]
      · rw [if_pos (by simpa using ‹¬ is_valid_position w x1 y1 = true›)]
  · have hval : ∀ (x y : Int), is_updated w x y = false →
        is_valid_position w x y = true ∧ cellB w.moved x.toNat y.toNat = false := by
      intro x y h
      unfold is_updated at h
      split at h
      · exact ⟨by assumption, h⟩
      · exact absurd h (by simp)
    constructor
    · intro h
      rw [Bool.or_eq_false_iff] at h
      obtain ⟨hv1, hm1⟩ := hval x1 y1 h.1
      obtain ⟨hv2, hm2⟩ := hval x2 y2 h.2
      obtain ⟨_, _, hx1, hy1⟩ := valid_spec w x1 y1 hv1
      obtain ⟨_, _, hx2, hy2⟩ := valid_spec w x2 y2 hv2
      have hnotfail : ¬ ¬ (is_valid_position w x1 y1 = true ∧
          is_valid_position w x2 y2 = true) := by simp [hv1, hv2]
      have hnotmoved : (cellB w.moved x1.toNat y1.toNat ||
          cellB w.moved x2.toNat y2.toNat) = false := by simp [hm1, hm2]
      -- row-length bookkeeping for the nxt and moved buffers
      have hnl1 : y1.toNat < w.nxt.length := by rw [hn]; exact hy1
      have hnl2 : y2.toNat < w.nxt.length := by rw [hn]; exact hy2
      have hnr1 : x1.toNat < (w.nxt.getD y1.toNat []).length := by
        rw [hnr _ (getD_mem _ _ _ hnl1)]; exact hx1
      have hnr2 : x2.toNat < (w.nxt.getD y2.toNat []).length := by
        rw [hnr _ (getD_mem _ _ _ hnl2)]; exact hx2
      have hml1 : y1.toNat < w.moved.length := by rw [hm]; exact hy1
      have hml2 : y2.toNat < w.moved.length := by rw [hm]; exact hy2
      have hmr1 : x1.toNat < (w.moved.getD y1.toNat []).length := by
        rw [hmr _ (getD_mem _ _ _ hml1)]; exact hx1
      have hmr2 : x2.toNat < (w.moved.getD y2.toNat []).length := by
        rw [hmr _ (getD_mem _ _ _ hml2)]; exact hx2
      refine ⟨?_, ?_, ?_, ?_⟩
      · unfold swap_pixels
        rw [if_neg hnotfail, if_neg (by simp [hm1, hm2])]
      · unfold try_move
        rw [if_neg hnotfail, if_neg (by simp [hm1, hm2])]
      · -- swap postconditions
        have hswap : swap_pixels w x1 y1 x2 y2 =
            (true,
              { w with
                nxt := setCell (setCell w.nxt x1.toNat y1.toNat
                  (cell w.cur x2.toNat y2.toNat)) x2.toNat y2.toNat
                  (cell w.cur x1.toNat y1.toNat)
                moved := setFlag (setFlag w.moved x1.toNat y1.toNat true)
                  x2.toNat y2.toNat true }) := by
          unfold swap_pixels
          rw [if_neg hnotfail, if_neg (by simp [hm1, hm2])]
        rw [hswap]
        refine ⟨rfl, rfl, rfl, ?_, ?_, ?_, ?_, ?_⟩
        · exact cell_setCell_self _ _ _ _
            (by rw [setCell_length]; exact hnl2)
            (by rw [setCell_row_len]; exact hnr2)
        · by_cases hee : (x1.toNat, y1.toNat) = (x2.toNat, y2.toNat)
          · have ha : x1.toNat = x2.toNat := congrArg Prod.fst hee
            have hb : y1.toNat = y2.toNat := congrArg Prod.snd hee
            rw [ha, hb]
            exact cell_setCell_self _ _ _ _
              (by rw [setCell_length]; exact hnl2)
              (by rw [setCell_row_len]; exact hnr2)
          · show cell (setCell (setCell w.nxt x1.toNat y1.toNat
                (cell w.cur x2.toNat y2.toNat)) x2.toNat y2.toNat
                (cell w.cur x1.toNat y1.toNat)) x1.toNat y1.toNat =
              cell w.cur x2.toNat y2.toNat
            rw [cell_setCell_ne _ _ _ _ _ _ hee,
              cell_setCell_self _ _ _ _ hnl1 hnr1]
        · unfold is_updated
          rw [if_pos (by simpa using hv1)]
          exact cellB_setFlag_true_mono _ _ _ _ _
            (cellB_setFlag_self _ _ _ _ hml1 hmr1)
        · unfold is_updated
          rw [if_pos (by simpa using hv2)]
          exact cellB_setFlag_self _ _ _ _
            (by rw [setFlag_length]; exact hml2)
            (by rw [setFlag_row_len]; exact hmr2)
        · intro a b hne1 hne2
          constructor
          · rw [cell_setCell_ne _ _ _ _ _ _ hne2, cell_setCell_ne _ _ _ _ _ _ hne1]
          · rw [cellB_setFlag_ne _ _ _ _ _ _ hne2, cellB_setFlag_ne _ _ _ _ _ _ hne1]
      · -- move postconditions
        have hmove : try_move w x1 y1 x2 y2 =
            (true,
              { w with
                nxt := setCell (setCell w.nxt x2.toNat y2.toNat
                  (cell w.cur x1.toNat y1.toNat)) x1.toNat y1.toNat EMPTY
                moved := setFlag (setFlag w.moved x1.toNat y1.toNat true)
                  x2.toNat y2.toNat true }) := by
          unfold try_move
          rw [if_neg hnotfail, if_neg (by simp [hm1, hm2])]
        rw [hmove]
        refine ⟨rfl, rfl, rfl, ?_, ?_, ?_, ?_, ?_⟩
        · exact cell_setCell_self _ _ _ _
            (by rw [setCell_length]; exact hnl1)
            (by rw [setCell_row_len]; exact hnr1)
        · intro hee
          rw [cell_setCell_ne _ _ _ _ _ _ (Ne.symm hee),
            cell_setCell_self _ _ _ _ hnl2 hnr2]
        · unfold is_updated
          rw [if_pos (by simpa using hv1)]
          exact cellB_setFlag_true_mono _ _ _ _ _
            (cellB_setFlag_self _ _ _ _ hml1 hmr1)
        · unfold is_updated
          rw [if_pos (by simpa using hv2)]
          exact cellB_setFlag_self _ _ _ _
            (by rw [setFlag_length]; exact hml2)
            (by rw [setFlag_row_len]; exact hmr2)
        · intro a b hne1 hne2
          constructor
          · rw [cell_setCell_ne _ _ _ _ _ _ hne1, cell_setCell_ne _ _ _ _ _ _ hne2]
          · rw [cellB_setFlag_ne _ _ _ _ _ _ hne2, cellB_setFlag_ne _ _ _ _ _ _ hne1]
    · intro h
      obtain ⟨hv1, hm1⟩ := hval x1 y1 h
      obtain ⟨_, _, hx1, hy1⟩ := valid_spec w x1 y1 hv1
      have hnl1 : y1.toNat < w.nxt.length := by rw [hn]; exact hy1
      have hnr1 : x1.toNat < (w.nxt.getD y1.toNat []).length := by
        rw [hnr _ (getD_mem _ _ _ hnl1)]; exact hx1
      have hml1 : y1.toNat < w.moved.length := by rw [hm]; exact hy1
      have hmr1 : x1.toNat < (w.moved.getD y1.toNat []).length := by
        rw [hmr _ (getD_mem _ _ _ hml1)]; exact hx1
      have hset : try_set w x1 y1 v =
          (true,
            { w with
              nxt := setCell w.nxt x1.toNat y1.toNat v
              moved := setFlag w.moved x1.toNat y1.toNat true }) := by
        unfold try_set
        rw [if_neg (by simpa using hv1), if_neg (by simp [hm1])]
      rw [hset]
      refine ⟨rfl, rfl, rfl, rfl, ?_, ?_, ?_⟩
      · exact cell_setCell_self _ _ _ _ hnl1 hnr1
      · unfold is_updated
        rw [if_pos (by simpa using hv1)]
        exact cellB_setFlag_self _ _ _ _ hml1 hmr1
      · intro a b hne1
        exact ⟨cell_setCell_ne _ _ _ _ _ _ hne1, cellB_setFlag_ne _ _ _ _ _ _ hne1⟩

/-- Witness for C3 at concrete inputs: a swap of two in-bounds unresolved
cells succeeds, and an overwrite at an out-of-bounds coordinate fails with
no effect. -/
theorem C3_primitive_contracts_witness :
    (swap_pixels (mkWorld 2 2) 0 0 1 1).1 = true ∧
    try_set (mkWorld 2 2) 5 5 SAND = (false, mkWorld 2 2) :=
  ⟨((C3_primitive_contracts (mkWorld 2 2) 0 0 1 1 SAND (by decide)).2.1
      (by decide)).1,
    (C3_primitive_contracts (mkWorld 2 2) 5 5 1 1 SAND (by decide)).1.2
      (by decide)⟩

/-- Validity of a position depends only on the dimensions. -/
theorem valid_congr (w w2 : World) (x y : Int) (hw : w2.width = w.width)
    (hh : w2.height = w.height) :
    is_valid_position w2 x y = is_valid_position w x y := by
  unfold is_valid_position
  rw [hw, hh]

/-- Claim C10: every coordinate-taking public operation is total and treats
out-of-bounds coordinates as a valid non-exceptional case: reads return a
sentinel (none / -1), writes and primitives return false with no effect,
`is_updated` reports true, and `mark_updated` changes nothing. -/
theorem C10_bounds_policy (w : World) (x y : Int) (v : Nat)
    (h : is_valid_position w x y = false) :
    get_pixel w x y = -1 ∧
    get_material_at w x y = none ∧
    set_pixel w x y v = (false, w) ∧
    (∀ a b : Int,
      swap_pixels w x y a b = (false, w) ∧
      swap_pixels w a b x y = (false, w) ∧
      try_move w x y a b = (false, w) ∧
      try_move w a b x y = (false, w)) ∧
    try_set w x y v = (false, w) ∧
    is_updated w x y = true ∧
    mark_updated w x y = w := by
  refine ⟨?_, ?_, ?_, ?_, ?_, ?_, ?_⟩
  · simp [get_pixel, h]
  · simp [get_material_at, get_pixel, h, registry_get]
  · simp [set_pixel, h]
  · intro a b
    refine ⟨?_, ?_, ?_, ?_⟩ <;> simp [swap_pixels, try_move, h]
  · simp [try_set, h]
  · simp [is_updated, h]
  · simp [mark_updated, h]

/-- Witness for C10 at the coordinate (-1, 0) of a 1-by-1 world. -/
theorem C10_bounds_policy_witness :
    get_pixel (mkWorld 1 1) (-1) 0 = -1 ∧
    get_material_at (mkWorld 1 1) (-1) 0 = none ∧
    is_updated (mkWorld 1 1) (-1) 0 = true :=
  have h := C10_bounds_policy (mkWorld 1 1) (-1) 0 SAND (by decide)
  ⟨h.1, h.2.1, h.2.2.2.2.2.1⟩

/-- Claim C1: within a step no cell's next-buffer slot is written twice:
a primitive involving a resolved cell fails and leaves the whole world (in
particular the next buffer) unchanged, resolved marks persist through every
primitive, and every successful primitive marks all involved cells
resolved, so a later primitive involving them fails. -/
theorem C1_no_double_write (w : World) (x y : Int) (hwf : wf w = true) :
    (is_updated w x y = true →
      ∀ (a b : Int) (v : Nat),
        swap_pixels w x y a b = (false, w) ∧
        swap_pixels w a b x y = (false, w) ∧
        try_move w x y a b = (false, w) ∧
        try_move w a b x y = (false, w) ∧
        try_set w x y v = (false, w)) ∧
    (is_updated w x y = true →
      ∀ (a b c d : Int) (v : Nat),
        is_updated (swap_pixels w a b c d).2 x y = true ∧
        is_updated (try_move w a b c d).2 x y = true ∧
        is_updated (try_set w a b v).2 x y = true) ∧
    (∀ (a b c d : Int) (v : Nat),
      ((swap_pixels w a b c d).1 = true →
        is_updated (swap_pixels w a b c d).2 a b = true ∧
        is_updated (swap_pixels w a b c d).2 c d = true) ∧
      ((try_move w a b c d).1 = true →
        is_updated (try_move w a b c d).2 a b = true ∧
        is_updated (try_move w a b c d).2 c d = true) ∧
      ((try_set w a b v).1 = true →
        is_updated (try_set w a b v).2 a b = true)) := by
  obtain ⟨hc, hcr, hn, hnr, hm, hmr⟩ := wf_spec w hwf
  have hcases : ∀ (x y : Int), is_updated w x y = true →
      is_valid_position w x y = false ∨
      (is_valid_position w x y = true ∧
        cellB w.moved x.toNat y.toNat = true) := by
    intro x y h
    unfold is_updated at h
    split at h
    · exact Or.inr ⟨by assumption, h⟩
    · exact Or.inl (by simpa using ‹¬ is_valid_position w x y = true›)
  refine ⟨?_, ?_, ?_⟩
  · intro h a b v
    rcases hcases x y h with hinv | ⟨hv, hmv⟩
    · refine ⟨?_, ?_, ?_, ?_, ?_⟩ <;>
        simp [swap_pixels, try_move, try_set, hinv]
    · refine ⟨?_, ?_, ?_, ?_, ?_⟩
      · unfold swap_pixels
        split
        · rfl
        · rw [if_pos (by simp [hmv])]
      · unfold swap_pixels
        split
        · rfl
        · rw [if_pos (by simp [hmv])]
      · unfold try_move
        split
        · rfl
        · rw [if_pos (by simp [hmv])]
      · unfold try_move
        split
        · rfl
        · rw [if_pos (by simp [hmv])]
      · unfold try_set
        rw [if_neg (by simpa using hv), if_pos hmv]
  · intro h a b c d v
    have hpersist : ∀ w2 : World, w2.width = w.width → w2.height = w.height →
        (w2.moved = w.moved ∨
          (∃ p q s t2 : Nat, w2.moved =
            setFlag (setFlag w.moved p q true) s t2 true) ∨
          (∃ p q : Nat, w2.moved = setFlag w.moved p q true)) →
        is_updated w2 x y = true := by
      intro w2 hw2w hw2h hmoved
      rcases hcases x y h with hinv | ⟨hv, hmv⟩
      · unfold is_updated
        rw [if_neg (by simp [valid_congr w w2 x y hw2w hw2h, hinv])]
      · unfold is_updated
        rw [if_pos (by simp [valid_congr w w2 x y hw2w hw2h, hv])]
        rcases hmoved with he | ⟨p, q, s, t2, he⟩ | ⟨p, q, he⟩
        · rw [he]; exact hmv
        · rw [he]
          exact cellB_setFlag_true_mono _ _ _ _ _
            (cellB_setFlag_true_mono _ _ _ _ _ hmv)
        · rw [he]
          exact cellB_setFlag_true_mono _ _ _ _ _ hmv
    refine ⟨?_, ?_, ?_⟩
    · refine hpersist _ (swap_pixels_core w a b c d).1
        (swap_pixels_core w a b c d).2.1 ?_
      unfold swap_pixels
      split
      · exact Or.inl rfl
      · split
        · exact Or.inl rfl
        · exact Or.inr (Or.inl ⟨_, _, _, _, rfl⟩)
    · refine hpersist _ (try_move_core w a b c d).1
        (try_move_core w a b c d).2.1 ?_
      unfold try_move
      split
      · exact Or.inl rfl
      · split
        · exact Or.inl rfl
        · exact Or.inr (Or.inl ⟨_, _, _, _, rfl⟩)
    · refine hpersist _ (try_set_core w a b v).1
        (try_set_core w a b v).2.1 ?_
      unfold try_set
      split
      · exact Or.inl rfl
      · split
        · exact Or.inl rfl
        · exact Or.inr (Or.inr ⟨_, _, rfl⟩)
  · intro a b c d v
    have hmark : ∀ (p q : Int), is_valid_position w p q = true →
        ∀ m2 : FlagGrid,
        (∃ e f : Nat, m2 = setFlag (setFlag w.moved p.toNat q.toNat true) e f true) ∨
        m2 = setFlag w.moved p.toNat q.toNat true →
        is_updated { w with moved := m2 } p q = true := by
      intro p q hv m2 hm2
      obtain ⟨_, _, hpx, hqy⟩ := valid_spec w p q hv
      have hml : q.toNat < w.moved.length := by rw [hm]; exact hqy
      have hmrl : p.toNat < (w.moved.getD q.toNat []).length := by
        rw [hmr _ (getD_mem _ _ _ hml)]; exact hpx
      unfold is_updated
      rw [if_pos (by simpa using hv)]
      rcases hm2 with ⟨e, f, he⟩ | he
      · rw [he]
        exact cellB_setFlag_true_mono _ _ _ _ _
          (cellB_setFlag_self _ _ _ _ hml hmrl)
      · rw [he]
        exact cellB_setFlag_self _ _ _ _ hml hmrl
    have hmark2 : ∀ (p q : Int), is_valid_position w p q = true →
        ∀ m1 : FlagGrid, m1.length = w.moved.length →
        ((m1.getD q.toNat []).length = (w.moved.getD q.toNat []).length) →
        is_updated { w with moved := setFlag m1 p.toNat q.toNat true } p q = true := by
      intro p q hv m1 hlen hrlen
      obtain ⟨_, _, hpx, hqy⟩ := valid_spec w p q hv
      unfold is_updated
      rw [if_pos (by simpa using hv)]
      exact cellB_setFlag_self _ _ _ _
        (by rw [hlen, hm]; exact hqy)
        (by rw [hrlen, hmr _ (getD_mem _ _ _ (by rw [hm]; exact hqy))]; exact hpx)
    refine ⟨?_, ?_, ?_⟩
    · intro hs
      unfold swap_pixels at hs ⊢
      split at hs
      · exact absurd hs (by simp)
      · split at hs
        · exact absurd hs (by simp)
        · rename_i hval hmov
          rw [if_neg hval, if_neg hmov]
          have hv12 := Decidable.not_not.mp hval
          exact ⟨hmark a b hv12.1 _ (Or.inl ⟨_, _, rfl⟩),
            hmark2 c d hv12.2 _ (setFlag_length _ _ _ _) (setFlag_row_len _ _ _ _ _)⟩
    · intro hs
      unfold try_move at hs ⊢
      split at hs
      · exact absurd hs (by simp)
      · split at hs
        · exact absurd hs (by simp)
        · rename_i hval hmov
          rw [if_neg hval, if_neg hmov]
          have hv12 := Decidable.not_not.mp hval
          exact ⟨hmark a b hv12.1 _ (Or.inl ⟨_, _, rfl⟩),
            hmark2 c d hv12.2 _ (setFlag_length _ _ _ _) (setFlag_row_len _ _ _ _ _)⟩
    · intro hs
      unfold try_set at hs ⊢
      split at hs
      · exact absurd hs (by simp)
      · split at hs
        · exact absurd hs (by simp)
        · rename_i hval hmov
          rw [if_neg hval, if_neg hmov]
          have hv1 : is_valid_position w a b = true :=
            Decidable.not_not.mp hval
          exact hmark a b hv1 _ (Or.inr rfl)

/-- Witness for C1: in a world whose only cell is already resolved, a swap
involving that cell fails and leaves the world unchanged. -/
theorem C1_no_double_write_witness :
    swap_pixels { mkWorld 1 1 with moved := [[true]] } 0 0 0 0 =
      (false, { mkWorld 1 1 with moved := [[true]] }) :=
  ((C1_no_double_write { mkWorld 1 1 with moved := [[true]] } 0 0
      (by decide)).1 (by decide) 0 0 SAND).1

/-- Claim C7 (code bug): after `clear()` both buffers are all-Empty and the
resolved mask is all-false, but the fire-lifetime entry keyed by (0, 0)
survives the call: the source keeps `FireMaterial._lifetimes` in a class
attribute that `World.clear` never touches. -/
theorem C7_clear_lifetimes_bug :
    (clear c7_world).cur = [[EMPTY]] ∧
    (clear c7_world).nxt = [[EMPTY]] ∧
    (clear c7_world).moved = [[false]] ∧
    lifetimes_get (clear c7_world).lifetimes (0, 0) = some 5 := by
  refine ⟨rfl, rfl, rfl, rfl⟩

/-- Claim C5: `SandMaterial.update` coincides with the rule as the
specification words it; Sand's density is 150. -/
theorem C5_sand_rule (x y : Int) (w : World) (r : Rng) :
    sand_update x y w r = sand_update_claim x y w r ∧ density SAND = 150 := by
  refine ⟨?_, by decide⟩
  unfold sand_update sand_update_claim passable_claim
  dsimp only
  cases hb : get_material_at w x (y + 1) with
  | none => rfl
  | some m =>
    by_cases hd : density m < 150
    · simp [hd]
    · simp [hd]

/-- Claim C6: `WaterMaterial.update` and `OilMaterial.update` coincide with
the three-priority fluid rule as the specification words it, instantiated
with their ids and densities, and Oil is strictly lighter than Water. -/
theorem C6_fluid_rule (x y : Int) (w : World) (r : Rng) :
    water_update x y w r = fluid_update_claim WATER 100 x y w r ∧
    oil_update x y w r = fluid_update_claim OIL 50 x y w r ∧
    density OIL < density WATER := by
  refine ⟨?_, ?_, by decide⟩
  · unfold water_update fluid_update fluid_update_claim passable_claim
      same_material_above_claim
    rfl
  · unfold oil_update fluid_update fluid_update_claim passable_claim
      same_material_above_claim
    rfl

theorem lifetimes_erase_set (l : Lifetimes) (k : Int × Int) (v : Int) :
    lifetimes_erase (lifetimes_set l k v) k = lifetimes_erase l k := by
  induction l with
  | nil => simp [lifetimes_set, lifetimes_erase, List.filter_cons]
  | cons p t ih =>
    by_cases h : p.1 = k
    · simp [lifetimes_set, lifetimes_erase, List.filter_cons, h]
    · simpa [lifetimes_set, lifetimes_erase, List.filter_cons, h] using ih

theorem lifetimes_set_set (l : Lifetimes) (k : Int × Int) (a b : Int) :
    lifetimes_set (lifetimes_set l k a) k b = lifetimes_set l k b := by
  induction l with
  | nil => simp [lifetimes_set]
  | cons p t ih =>
    by_cases h : p.1 = k
    · simp [lifetimes_set, h]
    · simp [lifetimes_set, h, ih]

/-- The ignition stage of the source and the claim's wording coincide. -/
theorem spread_fire_eq_claim :
    spread_fire = ignite_neighbors_claim := rfl

/-- The diagonal-rise block of the source and the claim's wording coincide. -/
theorem rise_diag_eq_claim (x y : Int) (w : World) (r : Rng) :
    fire_rise.fire_rise_diag x y w r = rise_diag_claim x y w r := rfl

/-- The rise stage of the source and the claim's wording coincide: the
source's density-gate (`above.density > -10`) composed with its Empty test
amounts to the claim's plain Empty test. -/
theorem fire_rise_eq_claim (x y : Int) (w : World) (r : Rng) :
    fire_rise x y w r = rise_claim x y w r := by
  unfold fire_rise rise_claim
  cases ha : get_material_at w x (y - 1) with
  | none =>
    simp only [ha]
    exact rise_diag_eq_claim x y w r
  | some m =>
    simp only [ha]
    by_cases he : m = EMPTY
    · subst he
      norm_num [density, EMPTY]
    · by_cases hd : density m > -10
      · simp only [hd, decide_eq_true_eq, if_pos, he, decide_eq_false_iff_not,
          not_false_eq_true]
        exact rise_diag_eq_claim x y w r
      · rw [if_neg (by simp [hd]), if_neg (by simp [he])]
        exact rise_diag_eq_claim x y w r

theorem fire_tail_eq (x y : Int) (w1 : World) (r1 : Rng) :
    fire_rise x y (spread_fire x y w1 r1).1 (spread_fire x y w1 r1).2 =
      rise_claim x y (ignite_neighbors_claim x y w1 r1).1
        (ignite_neighbors_claim x y w1 r1).2 := by
  rw [← spread_fire_eq_claim]
  exact fire_rise_eq_claim x y _ _

theorem fire_update_eq_claim (x y : Int) (w : World) (r : Rng) :
    fire_update x y w r = fire_update_claim x y w r := by
  unfold fire_update fire_update_claim
  dsimp only
  cases hl : lifetimes_get w.lifetimes (x, y) with
  | some v =>
    simp only [hl, lifetimes_get_set_self, Option.getD_some]
    rw [lifetimes_erase_set, fire_tail_eq]
  | none =>
    simp only [hl, lifetimes_get_set_self, Option.getD_some, lifetimes_set_set]
    rw [lifetimes_erase_set, fire_tail_eq]

/-- Claim C4: `FireMaterial.update` coincides with the rule as the
specification words it (first-tick lifetime assignment, decrement,
extinguish at zero, per-neighbor ignition, rise with lifetime relocation);
in the random model the assigned lifetime always lies in [15, 30] and every
value in that range is reachable, the ignition draw fires for exactly 3 of
10 residues (probability 0.3), and a relocated lifetime entry disappears
from the source key and appears at the destination key with the same
value. -/
theorem C4_fire_rule :
    (∀ (x y : Int) (w : World) (r : Rng),
      fire_update x y w r = fire_update_claim x y w r) ∧
    (∀ r : Rng, 15 ≤ (randint 15 30 r).1 ∧ (randint 15 30 r).1 ≤ 30) ∧
    (∀ v : Nat, 15 ≤ v → v ≤ 30 → ∃ r : Rng, (randint 15 30 r).1 = v) ∧
    ((List.range 10).filter (fun n => (rand_ignite [n]).1)).length = 3 ∧
    (∀ (l : Lifetimes) (k1 k2 : Int × Int) (v : Int), k1 ≠ k2 →
      lifetimes_get l k1 = some v →
      lifetimes_get (move_lifetime l k1 k2) k1 = none ∧
      lifetimes_get (move_lifetime l k1 k2) k2 = some v) := by
  refine ⟨fire_update_eq_claim, ?_, ?_, by decide, move_lifetime_spec⟩
  · intro r
    cases r with
    | nil => exact ⟨by decide, by decide⟩
    | cons n t =>
      have h : n % 16 < 16 := Nat.mod_lt n (by decide)
      exact ⟨by show 15 ≤ 15 + n % (30 + 1 - 15); omega,
        by show 15 + n % (30 + 1 - 15) ≤ 30; omega⟩
  · intro v h1 h2
    refine ⟨[v - 15], ?_⟩
    show 15 + (v - 15) % (30 + 1 - 15) = v
    rw [Nat.mod_eq_of_lt (by omega)]
    omega

/-- Witness for C4 at concrete inputs: a lifetime entry relocated from
(0, 0) to (0, -1) leaves the source key and keeps its value, and the
lifetime value 20 is reachable from a concrete draw. -/
theorem C4_fire_rule_witness :
    (lifetimes_get (move_lifetime [((0, 0), 7)] (0, 0) (0, -1)) (0, 0) = none ∧
      lifetimes_get (move_lifetime [((0, 0), 7)] (0, 0) (0, -1)) (0, -1) = some 7) ∧
    (∃ r : Rng, (randint 15 30 r).1 = 20) :=
  ⟨C4_fire_rule.2.2.2.2 [((0, 0), 7)] (0, 0) (0, -1) 7 (by decide) (by decide),
    C4_fire_rule.2.2.1 20 (by decide) (by decide)⟩

/-!
Soundness of the passability guards, and decomposition of each rule into
its requested swap.
-/

theorem lighter_sound (w : World) (a b : Int) (sd : Int)
    (h : (match get_material_at w a b with
          | some m => decide (density m < sd)
          | none => false) = true) :
    ∃ m, get_material_at w a b = some m ∧ density m < sd := by
  cases hg : get_material_at w a b with
  | none => rw [hg] at h; simp at h
  | some m =>
    rw [hg] at h
    simp only [decide_eq_true_eq] at h
    exact ⟨m, rfl, h⟩

theorem empty_sound (w : World) (a b : Int)
    (h : (match get_material_at w a b with
          | some m => decide (m = EMPTY)
          | none => false) = true) :
    get_material_at w a b = some EMPTY := by
  cases hg : get_material_at w a b with
  | none => rw [hg] at h; simp at h
  | some m =>
    rw [hg] at h
    simp only [decide_eq_true_eq] at h
    rw [h]

theorem sand_update_dest_decomp (x y : Int) (w : World) (r : Rng) :
    sand_update x y w r =
      (match sand_swap_dest x y w r with
       | (some d, r2) => ((swap_pixels w x y d.1 d.2).2, r2)
       | (none, r2) => (w, r2)) := by
  unfold sand_update sand_swap_dest
  dsimp only
  cases hb : get_material_at w x (y + 1) <;> simp only [hb] <;>
    (repeat' split) <;> try rfl
  all_goals injections
  all_goals subst_vars
  all_goals rfl

theorem fluid_update_dest_decomp (self_id : Nat) (self_density : Int)
    (x y : Int) (w : World) (r : Rng) :
    fluid_update self_id self_density x y w r =
      (match fluid_swap_dest self_id self_density x y w r with
       | (some d, r2) => ((swap_pixels w x y d.1 d.2).2, r2)
       | (none, r2) => (w, r2)) := by
  unfold fluid_update fluid_swap_dest
  dsimp only
  repeat' split
  all_goals injections
  all_goals subst_vars
  all_goals rfl

theorem fire_rise_dest_decomp (x y : Int) (w : World) (r : Rng) :
    fire_rise x y w r =
      (match fire_rise_dest x y w r with
       | (some d, r2) =>
         (if (swap_pixels w x y d.1 d.2).1 then
            { (swap_pixels w x y d.1 d.2).2 with
              lifetimes :=
                move_lifetime (swap_pixels w x y d.1 d.2).2.lifetimes (x, y) d }
          else (swap_pixels w x y d.1 d.2).2, r2)
       | (none, r2) => (w, r2)) := by
  unfold fire_rise fire_rise.fire_rise_diag fire_rise_dest
  dsimp only
  repeat' split
  all_goals try rfl
  all_goals try injections
  all_goals try subst_vars
  all_goals try (dsimp only at *)
  all_goals first
    | rfl
    | simp_all

theorem sand_dest_lighter (x y : Int) (w : World) (r : Rng) (d : Int × Int)
    (r2 : Rng) (h : sand_swap_dest x y w r = (some d, r2)) :
    ∃ m, get_material_at w d.1 d.2 = some m ∧ density m < density SAND := by
  have hsd : density SAND = 150 := by decide
  rw [hsd]
  unfold sand_swap_dest at h
  dsimp only at h
  have step : ∀ h2 : (
      let lp :=
        match get_material_at w (x - 1) (y + 1) with
        | some m => decide (density m < 150)
        | none => false
      let rp :=
        match get_material_at w (x + 1) (y + 1) with
        | some m => decide (density m < 150)
        | none => false
      if lp && rp then
        let d2 := randint 0 1 r
        if d2.1 = 0 then ((some (x - 1, y + 1) : Option (Int × Int)), d2.2)
        else ((some (x + 1, y + 1) : Option (Int × Int)), d2.2)
      else if lp then ((some (x - 1, y + 1) : Option (Int × Int)), r)
      else if rp then ((some (x + 1, y + 1) : Option (Int × Int)), r)
      else ((none : Option (Int × Int)), r)) = (some d, r2),
      ∃ m, get_material_at w d.1 d.2 = some m ∧ density m < 150 := by
    intro h2
    dsimp only at h2
    by_cases clr : ((match get_material_at w (x - 1) (y + 1) with
        | some m => decide (density m < 150)
        | none => false) &&
        (match get_material_at w (x + 1) (y + 1) with
        | some m => decide (density m < 150)
        | none => false)) = true
    · obtain ⟨cl, cr⟩ := Bool.and_eq_true _ _ ▸ clr
      rw [if_pos clr] at h2
      by_cases cd : (randint 0 1 r).1 = 0
      · rw [if_pos cd] at h2
        injection h2 with h1
        injection h1 with h1
        subst h1
        exact lighter_sound w (x - 1) (y + 1) 150 cl
      · rw [if_neg cd] at h2
        injection h2 with h1
        injection h1 with h1
        subst h1
        exact lighter_sound w (x + 1) (y + 1) 150 cr
    · rw [if_neg clr] at h2
      by_cases cl : (match get_material_at w (x - 1) (y + 1) with
          | some m => decide (density m < 150)
          | none => false) = true
      · rw [if_pos cl] at h2
        injection h2 with h1
        injection h1 with h1
        subst h1
        exact lighter_sound w (x - 1) (y + 1) 150 cl
      · rw [if_neg cl] at h2
        by_cases cr : (match get_material_at w (x + 1) (y + 1) with
            | some m => decide (density m < 150)
            | none => false) = true
        · rw [if_pos cr] at h2
          injection h2 with h1
          injection h1 with h1
          subst h1
          exact lighter_sound w (x + 1) (y + 1) 150 cr
        · rw [if_neg cr] at h2
          injection h2 with h1
          exact Option.noConfusion h1
  cases hb : get_material_at w x (y + 1) with
  | some below =>
    rw [hb] at h
    dsimp only at h
    by_cases hd : density below < 150
    · rw [if_pos hd] at h
      injection h with h1
      injection h1 with h1
      subst h1
      exact ⟨below, hb, hd⟩
    · rw [if_neg hd] at h
      exact step h
  | none =>
    rw [hb] at h
    exact step h

theorem fluid_dest_lighter (self_id : Nat) (self_density : Int) (x y : Int)
    (w : World) (r : Rng) (d : Int × Int) (r2 : Rng)
    (h : fluid_swap_dest self_id self_density x y w r = (some d, r2)) :
    ∃ m, get_material_at w d.1 d.2 = some m ∧ density m < self_density := by
  unfold fluid_swap_dest at h
  dsimp only at h
  by_cases c1 : (match get_material_at w x (y + 1) with
      | some m => decide (density m < self_density)
      | none => false) = true
  · rw [if_pos c1] at h
    injection h with h1
    injection h1 with h1
    subst h1
    exact lighter_sound w x (y + 1) self_density c1
  · rw [if_neg c1] at h
    by_cases clr : ((match get_material_at w (x - 1) (y + 1) with
        | some m => decide (density m < self_density)
        | none => false) &&
        (match get_material_at w (x + 1) (y + 1) with
        | some m => decide (density m < self_density)
        | none => false)) = true
    · obtain ⟨cl, cr⟩ := Bool.and_eq_true _ _ ▸ clr
      rw [if_pos clr] at h
      by_cases cd : (randint 0 1 r).1 = 0
      · rw [if_pos cd] at h
        injection h with h1
        injection h1 with h1
        subst h1
        exact lighter_sound w (x - 1) (y + 1) self_density cl
      · rw [if_neg cd] at h
        injection h with h1
        injection h1 with h1
        subst h1
        exact lighter_sound w (x + 1) (y + 1) self_density cr
    · rw [if_neg clr] at h
      by_cases cl : (match get_material_at w (x - 1) (y + 1) with
          | some m => decide (density m < self_density)
          | none => false) = true
      · rw [if_pos cl] at h
        injection h with h1
        injection h1 with h1
        subst h1
        exact lighter_sound w (x - 1) (y + 1) self_density cl
      · rw [if_neg cl] at h
        by_cases cr : (match get_material_at w (x + 1) (y + 1) with
            | some m => decide (density m < self_density)
            | none => false) = true
        · rw [if_pos cr] at h
          injection h with h1
          injection h1 with h1
          subst h1
          exact lighter_sound w (x + 1) (y + 1) self_density cr
        · rw [if_neg cr] at h
          by_cases cg : (match get_material_at w x (y - 1) with
              | some m => decide (m = self_id)
              | none => false) = true
          · rw [if_pos cg] at h
            injection h with h1
            exact Option.noConfusion h1
          · rw [if_neg cg] at h
            by_cases cll : ((match get_material_at w (x - 1) y with
                | some m => decide (density m < self_density)
                | none => false) &&
                (match get_material_at w (x + 1) y with
                | some m => decide (density m < self_density)
                | none => false)) = true
            · obtain ⟨ca, cb⟩ := Bool.and_eq_true _ _ ▸ cll
              rw [if_pos cll] at h
              by_cases cd : (randint 0 1 r).1 = 0
              · rw [if_pos cd] at h
                injection h with h1
                injection h1 with h1
                subst h1
                exact lighter_sound w (x - 1) y self_density ca
              · rw [if_neg cd] at h
                injection h with h1
                injection h1 with h1
                subst h1
                exact lighter_sound w (x + 1) y self_density cb
            · rw [if_neg cll] at h
              by_cases ca : (match get_material_at w (x - 1) y with
                  | some m => decide (density m < self_density)
                  | none => false) = true
              · rw [if_pos ca] at h
                injection h with h1
                injection h1 with h1
                subst h1
                exact lighter_sound w (x - 1) y self_density ca
              · rw [if_neg ca] at h
                by_cases cb : (match get_material_at w (x + 1) y with
                    | some m => decide (density m < self_density)
                    | none => false) = true
                · rw [if_pos cb] at h
                  injection h with h1
                  injection h1 with h1
                  subst h1
                  exact lighter_sound w (x + 1) y self_density cb
                · rw [if_neg cb] at h
                  injection h with h1
                  exact Option.noConfusion h1

theorem fire_dest_empty (x y : Int) (w : World) (r : Rng) (d : Int × Int)
    (r2 : Rng) (h : fire_rise_dest x y w r = (some d, r2)) :
    get_material_at w d.1 d.2 = some EMPTY := by
  unfold fire_rise_dest at h
  dsimp only at h
  have step : ∀ h2 : (
      let lp :=
        match get_material_at w (x - 1) (y - 1) with
        | some m => decide (m = EMPTY)
        | none => false
      let rp :=
        match get_material_at w (x + 1) (y - 1) with
        | some m => decide (m = EMPTY)
        | none => false
      if lp && rp then
        let d2 := randint 0 1 r
        if d2.1 = 0 then ((some (x - 1, y - 1) : Option (Int × Int)), d2.2)
        else ((some (x + 1, y - 1) : Option (Int × Int)), d2.2)
      else if lp then ((some (x - 1, y - 1) : Option (Int × Int)), r)
      else if rp then ((some (x + 1, y - 1) : Option (Int × Int)), r)
      else ((none : Option (Int × Int)), r)) = (some d, r2),
      get_material_at w d.1 d.2 = some EMPTY := by
    intro h2
    dsimp only at h2
    by_cases clr : ((match get_material_at w (x - 1) (y - 1) with
        | some m => decide (m = EMPTY)
        | none => false) &&
        (match get_material_at w (x + 1) (y - 1) with
        | some m => decide (m = EMPTY)
        | none => false)) = true
    · obtain ⟨cl, cr⟩ := Bool.and_eq_true _ _ ▸ clr
      rw [if_pos clr] at h2
      by_cases cd : (randint 0 1 r).1 = 0
      · rw [if_pos cd] at h2
        injection h2 with h1
        injection h1 with h1
        subst h1
        exact empty_sound w (x - 1) (y - 1) cl
      · rw [if_neg cd] at h2
        injection h2 with h1
        injection h1 with h1
        subst h1
        exact empty_sound w (x + 1) (y - 1) cr
    · rw [if_neg clr] at h2
      by_cases cl : (match get_material_at w (x - 1) (y - 1) with
          | some m => decide (m = EMPTY)
          | none => false) = true
      · rw [if_pos cl] at h2
        injection h2 with h1
        injection h1 with h1
        subst h1
        exact empty_sound w (x - 1) (y - 1) cl
      · rw [if_neg cl] at h2
        by_cases cr : (match get_material_at w (x + 1) (y - 1) with
            | some m => decide (m = EMPTY)
            | none => false) = true
        · rw [if_pos cr] at h2
          injection h2 with h1
          injection h1 with h1
          subst h1
          exact empty_sound w (x + 1) (y - 1) cr
        · rw [if_neg cr] at h2
          injection h2 with h1
          exact Option.noConfusion h1
  by_cases cgate : (match get_material_at w x (y - 1) with
      | some m => decide (density m > -10)
      | none => false) = true
  · rw [if_pos cgate] at h
    by_cases cemp : (match get_material_at w x (y - 1) with
        | some m => decide (m = EMPTY)
        | none => false) = true
    · rw [if_pos cemp] at h
      injection h with h1
      injection h1 with h1
      subst h1
      exact empty_sound w x (y - 1) cemp
    · rw [if_neg cemp] at h
      exact step h
  · rw [if_neg cgate] at h
    exact step h

/-- Claim C8, as stated, is false on the code: the Fire rule's rise
requests (and at this concrete world successfully performs) a swap whose
displaced material is Empty with density 0, which is not strictly lower
than Fire's density -10. -/
theorem C8_counterexample :
    ¬ (∀ (x y : Int) (w : World) (r : Rng) (d : Int × Int) (r2 : Rng),
        (sand_swap_dest x y w r = (some d, r2) →
          (swap_pixels w x y d.1 d.2).1 = true →
          ∀ m, get_material_at w d.1 d.2 = some m →
            density m < density SAND) ∧
        (fluid_swap_dest WATER 100 x y w r = (some d, r2) →
          (swap_pixels w x y d.1 d.2).1 = true →
          ∀ m, get_material_at w d.1 d.2 = some m →
            density m < density WATER) ∧
        (fluid_swap_dest OIL 50 x y w r = (some d, r2) →
          (swap_pixels w x y d.1 d.2).1 = true →
          ∀ m, get_material_at w d.1 d.2 = some m →
            density m < density OIL) ∧
        (fire_rise_dest x y w r = (some d, r2) →
          (swap_pixels w x y d.1 d.2).1 = true →
          ∀ m, get_material_at w d.1 d.2 = some m →
            density m < density FIRE)) := by
  intro hclaim
  exact absurd
    ((hclaim 0 1 c8_world [] (0, 0) []).2.2.2 (by decide) (by decide)
      EMPTY (by decide))
    (by decide)

/-- Claim C8 amended: every rule's requested swap is characterized by its
destination view; the destinations requested by the Sand, Water and Oil
rules always hold a strictly lighter material, while the Fire rule requests
swaps only into Empty cells, whose density 0 is strictly greater than
Fire's -10 (fire rises by displacing a strictly denser, Empty, neighbor). -/
theorem C8_density_monotonicity_amended :
    (∀ (x y : Int) (w : World) (r : Rng),
      sand_update x y w r =
        (match sand_swap_dest x y w r with
         | (some d, r2) => ((swap_pixels w x y d.1 d.2).2, r2)
         | (none, r2) => (w, r2))) ∧
    (∀ (self_id : Nat) (self_density : Int) (x y : Int) (w : World)
        (r : Rng),
      fluid_update self_id self_density x y w r =
        (match fluid_swap_dest self_id self_density x y w r with
         | (some d, r2) => ((swap_pixels w x y d.1 d.2).2, r2)
         | (none, r2) => (w, r2))) ∧
    (∀ (x y : Int) (w : World) (r : Rng),
      fire_rise x y w r =
        (match fire_rise_dest x y w r with
         | (some d, r2) =>
           (if (swap_pixels w x y d.1 d.2).1 then
              { (swap_pixels w x y d.1 d.2).2 with
                lifetimes :=
                  move_lifetime (swap_pixels w x y d.1 d.2).2.lifetimes
                    (x, y) d }
            else (swap_pixels w x y d.1 d.2).2, r2)
         | (none, r2) => (w, r2))) ∧
    (∀ (x y : Int) (w : World) (r : Rng) (d : Int × Int) (r2 : Rng),
      sand_swap_dest x y w r = (some d, r2) →
      ∃ m, get_material_at w d.1 d.2 = some m ∧ density m < density SAND) ∧
    (∀ (self_id : Nat) (self_density : Int) (x y : Int) (w : World)
        (r : Rng) (d : Int × Int) (r2 : Rng),
      fluid_swap_dest self_id self_density x y w r = (some d, r2) →
      ∃ m, get_material_at w d.1 d.2 = some m ∧ density m < self_density) ∧
    (∀ (x y : Int) (w : World) (r : Rng) (d : Int × Int) (r2 : Rng),
      fire_rise_dest x y w r = (some d, r2) →
      get_material_at w d.1 d.2 = some EMPTY ∧
        density EMPTY > density FIRE) :=
  ⟨sand_update_dest_decomp, fluid_update_dest_decomp, fire_rise_dest_decomp,
    sand_dest_lighter, fluid_dest_lighter,
    fun x y w r d r2 h => ⟨fire_dest_empty x y w r d r2 h, by decide⟩⟩

/-- Witness for the amended C8: the fire destination at the concrete world
is the Empty cell above, and the sand destination in a 2-tall column is the
strictly lighter Empty cell below. -/
theorem C8_density_monotonicity_amended_witness :
    (get_material_at c8_world (0, 0).1 (0, 0).2 = some EMPTY ∧
      density EMPTY > density FIRE) ∧
    (∃ m, get_material_at (sand_column 2) (0, 1).1 (0, 1).2 = some m ∧
      density m < density SAND) :=
  ⟨C8_density_monotonicity_amended.2.2.2.2.2 0 1 c8_world [] (0, 0) []
      (by decide),
    C8_density_monotonicity_amended.2.2.2.1 0 0 (sand_column 2) [] (0, 1) []
      (by decide)⟩

/-!
Scenario 1 (a single Sand cell in a 1-wide column): grid bookkeeping.
-/

theorem map_range_getD {α : Type} (f : Nat → α) (H n : Nat) (d : α) :
    ((List.range H).map f).getD n d = if n < H then f n else d := by
  by_cases hn : n < H
  · rw [List.getD_eq_getElem?_getD, List.getElem?_map, List.getElem?_range hn,
      if_pos hn]
    rfl
  · rw [List.getD_eq_getElem?_getD, List.getElem?_map,
      List.getElem?_eq_none (by simpa using Nat.le_of_not_lt hn), if_neg hn]
    rfl

theorem map_range_set {α : Type} (f : Nat → α) (H k : Nat) (v : α)
    (hk : k < H) :
    ((List.range H).map f).set k v =
      (List.range H).map (fun i => if i = k then v else f i) := by
  apply List.ext_getElem?
  intro n
  rw [List.getElem?_set]
  by_cases hn : k = n
  · subst hn
    rw [if_pos rfl, if_pos (by simpa using hk), List.getElem?_map,
      List.getElem?_range hk]
    simp
  · rw [if_neg hn, List.getElem?_map, List.getElem?_map]
    by_cases hnH : n < H
    · rw [List.getElem?_range hnH]
      simp [Ne.symm hn]
    · rw [List.getElem?_eq_none (by simpa using Nat.le_of_not_lt hnH)]
      rfl

theorem replicate_eq_map_range {α : Type} (H : Nat) (a : α) :
    List.replicate H a = (List.range H).map (fun _ => a) := by
  apply List.ext_getElem?
  intro n
  by_cases hn : n < H
  · rw [List.getElem?_replicate, if_pos hn, List.getElem?_map,
      List.getElem?_range hn]
    rfl
  · rw [List.getElem?_replicate, if_neg hn, List.getElem?_map,
      List.getElem?_eq_none (by simpa using Nat.le_of_not_lt hn)]
    rfl

theorem map_range_congr {α : Type} (f g : Nat → α) (H : Nat)
    (h : ∀ i, i < H → f i = g i) :
    (List.range H).map f = (List.range H).map g :=
  List.map_congr_left (fun a ha => h a (List.mem_range.mp ha))

theorem cell_col (H k j : Nat) (hk : k < H) :
    cell (col H k) 0 j = if j = k then SAND else EMPTY := by
  unfold cell col
  rw [map_range_getD]
  by_cases hj : j < H
  · rw [if_pos hj]
    split <;> rfl
  · rw [if_neg hj, if_neg (by intro he; exact hj (he ▸ hk))]
    rfl

theorem setCell_col_step (H k : Nat) (hk1 : k + 1 < H) :
    setCell (setCell (col H k) 0 k EMPTY) 0 (k + 1) SAND = col H (k + 1) := by
  have hk : k < H := by omega
  unfold setCell col
  rw [map_range_getD, if_pos hk, if_pos rfl,
    show ([SAND] : List Nat).set 0 EMPTY = [EMPTY] from rfl]
  rw [map_range_set _ _ _ _ hk]
  have h1 : (List.range H).map
      (fun i => if i = k then [EMPTY] else [if i = k then SAND else EMPTY]) =
      (List.range H).map (fun _ => [EMPTY]) := by
    apply map_range_congr
    intro i hi
    by_cases hik : i = k <;> simp [hik]
  rw [h1, map_range_getD, if_pos hk1]
  rw [map_range_set _ _ _ _ hk1]
  apply map_range_congr
  intro i hi
  by_cases hik : i = k + 1 <;> simp [hik]

theorem setFlag_col_step (H k : Nat) (hk1 : k + 1 < H) :
    setFlag (setFlag (create_flag_grid 1 H) 0 k true) 0 (k + 1) true =
      moved2col H k := by
  have hk : k < H := by omega
  unfold setFlag create_flag_grid moved2col
  rw [show (List.replicate 1 false) = [false] from rfl,
    replicate_eq_map_range H ([false] : List Bool)]
  rw [map_range_getD, if_pos hk,
    show ([false] : List Bool).set 0 true = [true] from rfl]

  rw [map_range_set _ _ _ _ hk]
  rw [map_range_getD, if_pos hk1]
  rw [show (if k + 1 = k then ([true] : List Bool) else [false]).set 0 true =
      [true] by rw [if_neg (show ¬ k + 1 = k by omega)]; rfl]
  rw [map_range_set _ _ _ _ hk1]
  apply map_range_congr
  intro i hi
  by_cases h1 : i = k + 1
  · simp [h1]
  · by_cases h2 : i = k <;> simp [h1, h2]

theorem flatMap_singleton_map {α β : Type} (l : List α) (g : α → β) :
    l.flatMap (fun y => [g y]) = l.map g := by
  induction l with
  | nil => rfl
  | cons a t ih => simp [List.flatMap_cons, ih]

theorem scan_width_one (H f : Nat) :
    scan_coords_claim H 1 f =
      ((List.range H).reverse).map (fun y => ((0 : Nat), y)) := by
  unfold scan_coords_claim
  have h1 : (if f % 2 = 0 then List.range 1 else (List.range 1).reverse) =
      [0] := by split <;> rfl
  rw [h1]
  exact flatMap_singleton_map _ _

theorem range_reverse_split (k a : Nat) :
    (List.range (k + 1 + a)).reverse =
      (List.range' (k + 1) a).reverse ++ k :: (List.range k).reverse := by
  induction a with
  | zero =>
    rw [show k + 1 + 0 = k + 1 from rfl, List.range_succ, List.reverse_append]
    rfl
  | succ a ih =>
    rw [show k + 1 + (a + 1) = (k + 1 + a) + 1 from rfl, List.range_succ,
      List.reverse_append, List.range'_concat, List.reverse_append]
    simp only [List.reverse_cons, List.reverse_nil, List.nil_append,
      List.singleton_append, List.cons_append]
    rw [ih]
    congr 2
    omega

theorem foldl_visit_inactive (t : List Nat) (ys : List Nat)
    (s : World × Rng) (h : ∀ y ∈ ys, cell s.1.cur 0 y ∉ t) :
    ys.foldl (fun wr y => visit t 0 y wr) s = s := by
  induction ys with
  | nil => rfl
  | cons y ys ih =>
    rw [List.foldl_cons, (visit_skips t 0 y s).2 (h y (List.mem_cons_self y ys))]
    exact ih (fun y2 hy2 => h y2 (List.mem_cons_of_mem y hy2))

theorem update_pass_inactive (t : List Nat) (w : World) (r : Rng)
    (hw : w.width = 1)
    (h : ∀ y, cell w.cur 0 y ∉ t) :
    update_pass t w r = (w, r) := by
  rw [update_pass_eq_scan, hw, scan_width_one, List.foldl_map]
  exact foldl_visit_inactive t _ (w, r) (fun y _ => h y)

theorem colWorld_valid_below (H k : Nat) (f : Nat) (nx : Grid)
    (mv : FlagGrid) (hk : k + 1 < H) :
    is_valid_position (colWorld H k f nx mv) ((0 : Nat) : Int)
      (((k : Nat) : Int) + 1) = true := by
  apply valid_of_bounds
  · exact le_refl 0
  · omega
  · show ((0 : Nat) : Int).toNat < 1
    decide
  · show (((k : Nat) : Int) + 1).toNat < H
    rw [show (((k : Nat) : Int) + 1) = (((k + 1 : Nat) : Int)) by push_cast; ring,
      Int.toNat_natCast]
    exact hk

theorem colWorld_valid_self (H k : Nat) (f : Nat) (nx : Grid)
    (mv : FlagGrid) (hk : k < H) :
    is_valid_position (colWorld H k f nx mv) ((0 : Nat) : Int)
      ((k : Nat) : Int) = true := by
  apply valid_of_bounds
  · exact le_refl 0
  · exact Int.natCast_nonneg k
  · show ((0 : Nat) : Int).toNat < 1
    decide
  · show ((k : Nat) : Int).toNat < H
    rw [Int.toNat_natCast]
    exact hk

theorem colWorld_below_empty (H k : Nat) (f : Nat) (nx : Grid)
    (mv : FlagGrid) (hk : k + 1 < H) :
    get_material_at (colWorld H k f nx mv) ((0 : Nat) : Int)
      (((k : Nat) : Int) + 1) = some EMPTY := by
  unfold get_material_at get_pixel
  rw [if_pos (colWorld_valid_below H k f nx mv hk)]
  show (if ((cell (col H k) ((0 : Nat) : Int).toNat
      ((((k : Nat) : Int)) + 1).toNat : Nat) : Int) < 0 then none
    else registry_get (cell (col H k) ((0 : Nat) : Int).toNat
      ((((k : Nat) : Int)) + 1).toNat : Nat)) = some EMPTY
  have hcell : cell (col H k) ((0 : Nat) : Int).toNat
      ((((k : Nat) : Int)) + 1).toNat = EMPTY := by
    show cell (col H k) 0 (k + 1) = EMPTY
    rw [cell_col H k (k + 1) (by omega), if_neg (by omega)]
  rw [hcell]
  rfl

theorem swap_pixels_col (H k f : Nat) (hk : k + 1 < H) :
    swap_pixels (colWorld H k f (col H k) (create_flag_grid 1 H))
      ((0 : Nat) : Int) ((k : Nat) : Int) ((0 : Nat) : Int)
      (((k : Nat) : Int) + 1) =
      (true, colWorld H k f (col H (k + 1)) (moved2col H k)) := by
  have hkH : k < H := by omega
  unfold swap_pixels
  rw [if_neg (by
    rw [colWorld_valid_self H k f (col H k) (create_flag_grid 1 H) hkH,
      colWorld_valid_below H k f (col H k) (create_flag_grid 1 H) hk]
    simp)]
  rw [if_neg (by
    show ¬ (cellB (create_flag_grid 1 H) _ _ || cellB (create_flag_grid 1 H) _ _) = true
    rw [cellB_create_flag_grid, cellB_create_flag_grid]
    simp)]
  dsimp only
  show (true, _) = (true, _)
  congr 1
  unfold colWorld
  congr 1
  · show setCell (setCell (col H k) 0 k (cell (col H k) 0 (k + 1))) 0 (k + 1)
      (cell (col H k) 0 k) = col H (k + 1)
    rw [cell_col H k (k + 1) hkH, if_neg (by omega),
      cell_col H k k hkH, if_pos rfl]
    exact setCell_col_step H k hk
  · show setFlag (setFlag (create_flag_grid 1 H) 0 k true) 0 (k + 1) true =
      moved2col H k
    exact setFlag_col_step H k hk

theorem sand_update_col (H k f : Nat) (hk : k + 1 < H) (r : Rng) :
    sand_update ((0 : Nat) : Int) ((k : Nat) : Int)
      (colWorld H k f (col H k) (create_flag_grid 1 H)) r =
      (colWorld H k f (col H (k + 1)) (moved2col H k), r) := by
  unfold sand_update
  dsimp only
  rw [colWorld_below_empty H k f (col H k) (create_flag_grid 1 H) hk]
  dsimp only
  rw [if_pos (by decide : density EMPTY < 150)]
  rw [swap_pixels_col H k f hk]

theorem visit_sand_cell (H k f : Nat) (hk : k + 1 < H) (r : Rng) :
    visit [SAND] 0 k
      (colWorld H k f (col H k) (create_flag_grid 1 H), r) =
      (colWorld H k f (col H (k + 1)) (moved2col H k), r) := by
  have hkH : k < H := by omega
  unfold visit
  dsimp only
  rw [show (colWorld H k f (col H k) (create_flag_grid 1 H)).moved =
    create_flag_grid 1 H from rfl]
  rw [cellB_create_flag_grid]
  rw [if_neg (by simp)]
  rw [show cell (colWorld H k f (col H k) (create_flag_grid 1 H)).cur 0 k =
    SAND by
      show cell (col H k) 0 k = SAND
      rw [cell_col H k k hkH]
      exact if_pos rfl]
  rw [if_pos (by decide : SAND ∈ [SAND])]
  rw [show registry_get ((SAND : Nat) : Int) = some SAND from rfl]
  show material_update SAND ((0 : Nat) : Int) ((k : Nat) : Int)
      (colWorld H k f (col H k) (create_flag_grid 1 H)) r = _
  unfold material_update
  rw [if_pos rfl]
  exact sand_update_col H k f hk r

theorem col_cell_not_target (H k : Nat) (hkH : k < H) (t : List Nat)
    (h0 : (EMPTY : Nat) ∉ t) (h2 : (SAND : Nat) ∉ t) :
    ∀ y, cell (col H k) 0 y ∉ t := by
  intro y
  rw [cell_col H k y hkH]
  split
  · exact h2
  · exact h0

theorem update_pass_sand_col (H k f : Nat) (r : Rng) (hk : k + 1 < H) :
    update_pass [SAND] (colWorld H k f (col H k) (create_flag_grid 1 H)) r =
      (colWorld H k f (col H (k + 1)) (moved2col H k), r) := by
  have hkH : k < H := by omega
  rw [update_pass_eq_scan]
  show (scan_coords_claim H 1 f).foldl (fun wr c => visit [SAND] c.1 c.2 wr)
      (colWorld H k f (col H k) (create_flag_grid 1 H), r) = _
  rw [scan_width_one, List.foldl_map]
  obtain ⟨a, ha⟩ : ∃ a, H = k + 1 + a := ⟨H - (k + 1), by omega⟩
  rw [show (List.range H).reverse = (List.range' (k + 1) a).reverse ++
    k :: (List.range k).reverse by rw [ha]; exact range_reverse_split k a]
  rw [List.foldl_append]
  rw [foldl_visit_inactive [SAND] ((List.range' (k + 1) a).reverse) _ (by
    intro y hy
    have hy2 : k + 1 ≤ y := by
      rw [List.mem_reverse, List.mem_range'_1] at hy
      exact hy.1
    show cell (col H k) 0 y ∉ [SAND]
    rw [cell_col H k y hkH, if_neg (by omega)]
    decide)]
  rw [List.foldl_cons]
  rw [visit_sand_cell H k f hk r]
  rw [foldl_visit_inactive [SAND] ((List.range k).reverse) _ (by
    intro y hy
    have hy2 : y < k := by
      rw [List.mem_reverse, List.mem_range] at hy
      exact hy
    show cell (col H k) 0 y ∉ [SAND]
    rw [cell_col H k y hkH, if_neg (by omega)]
    decide)]

theorem update_colWorld (H k f : Nat) (nx : Grid) (mv : FlagGrid) (r : Rng)
    (hk : k + 1 < H) :
    update (colWorld H k f nx mv) r =
      (colWorld H (k + 1) (f + 1) (col H k) (moved2col H k), r) := by
  have hkH : k < H := by omega
  unfold update
  dsimp only
  have hprep : ({ colWorld H k f nx mv with
      nxt := (colWorld H k f nx mv).cur,
      moved := create_flag_grid (colWorld H k f nx mv).width
        (colWorld H k f nx mv).height } : World) =
      colWorld H k f (col H k) (create_flag_grid 1 H) := rfl
  rw [hprep]
  rw [update_pass_inactive [FIRE] _ r rfl
    (col_cell_not_target H k hkH [FIRE] (by decide) (by decide))]
  dsimp only
  rw [update_pass_sand_col H k f r hk]
  dsimp only
  rw [update_pass_inactive [WATER, OIL] _ r rfl
    (col_cell_not_target H k hkH [WATER, OIL] (by decide) (by decide))]
  rfl

theorem sand_column_eq (H : Nat) (hH : 0 < H) :
    sand_column H =
      colWorld H 0 0 (create_empty_grid 1 H) (create_flag_grid 1 H) := by
  unfold sand_column set_pixel mkWorld
  rw [if_pos (by
    apply valid_of_bounds
    · exact le_refl 0
    · exact le_refl 0
    · show (0 : Int).toNat < 1
      decide
    · exact hH)]
  dsimp only
  unfold colWorld
  congr 1
  show setCell (create_empty_grid 1 H) 0 0 SAND = col H 0
  unfold setCell create_empty_grid col
  rw [show (List.replicate 1 EMPTY) = [EMPTY] from rfl,
    replicate_eq_map_range H ([EMPTY] : List Nat)]
  rw [map_range_getD, if_pos hH,
    show ([EMPTY] : List Nat).set 0 SAND = [SAND] from rfl]
  rw [map_range_set _ _ _ _ hH]
  apply map_range_congr
  intro i hi
  by_cases h0 : i = 0 <;> simp [h0]

theorem stepN_sand_column (H : Nat) (r : Rng) :
    ∀ j, j < H →
      ∃ nx mv, stepN j (sand_column H, r) = (colWorld H j j nx mv, r) := by
  intro j
  induction j with
  | zero =>
    intro hj
    exact ⟨create_empty_grid 1 H, create_flag_grid 1 H, by
      show (sand_column H, r) = _
      rw [sand_column_eq H (by omega)]⟩
  | succ j ih =>
    intro hj
    obtain ⟨nx, mv, heq⟩ := ih (by omega)
    refine ⟨col H j, moved2col H j, ?_⟩
    show (fun p : World × Rng => update p.1 p.2)^[j + 1] (sand_column H, r) = _
    rw [Function.iterate_succ_apply']
    have : (fun p : World × Rng => update p.1 p.2)^[j] (sand_column H, r) =
        (colWorld H j j nx mv, r) := heq
    rw [this]
    exact update_colWorld H j j nx mv r hj

/-- Claim C9, as stated (reaching the bottom after exactly H steps), is
false on the code: in a column of height 2 the Sand cell, placed at row 0,
already sits at row H - 1 = 1 after a single step. -/
theorem C9_counterexample :
    ¬ (∀ H : Nat, 1 ≤ H →
        cell ((stepN H (sand_column H, [])).1).cur 0 (H - 1) = SAND ∧
        ∀ j, j < H →
          cell ((stepN j (sand_column H, [])).1).cur 0 (H - 1) ≠ SAND) := by
  intro h
  exact (h 2 (by decide)).2 1 (by decide) (by decide)

/-- Claim C9 amended: a single Sand cell placed at row 0 of an otherwise
empty 1-wide column of height H reaches row H - 1 after exactly H - 1 calls
to step(): it is at the bottom row after H - 1 steps and not before. -/
theorem C9_sand_column_amended (H : Nat) (hH : 1 ≤ H) (r : Rng) :
    cell ((stepN (H - 1) (sand_column H, r)).1).cur 0 (H - 1) = SAND ∧
    ∀ j, j < H - 1 →
      cell ((stepN j (sand_column H, r)).1).cur 0 (H - 1) = EMPTY := by
  constructor
  · obtain ⟨nx, mv, heq⟩ := stepN_sand_column H r (H - 1) (by omega)
    rw [heq]
    show cell (col H (H - 1)) 0 (H - 1) = SAND
    rw [cell_col H (H - 1) (H - 1) (by omega)]
    exact if_pos rfl
  · intro j hj
    obtain ⟨nx, mv, heq⟩ := stepN_sand_column H r j (by omega)
    rw [heq]
    show cell (col H j) 0 (H - 1) = EMPTY
    rw [cell_col H j (H - 1) (by omega), if_neg (by omega)]

/-- Witness for the amended C9 at H = 3: the Sand cell is at the bottom
after 2 steps and not after 1. -/
theorem C9_sand_column_amended_witness :
    cell ((stepN 2 (sand_column 3, [])).1).cur 0 2 = SAND ∧
    cell ((stepN 1 (sand_column 3, [])).1).cur 0 2 = EMPTY :=
  ⟨(C9_sand_column_amended 3 (by decide) []).1,
    (C9_sand_column_amended 3 (by decide) []).2 1 (by decide)⟩

end FallingSand
